import Mathlib

/-!
# Verification of the chronodesk authentication core against its specification

The repository ships the integration test-suite (`server/tests/...`) and the
HTTP client used by the tests (`server/tests/utils/api.py`); the server
implementation itself is not part of the sources.  The authentication and
session-lifecycle core is therefore modelled from the specification
(`spec.md` §3–§7), faithfully to its words, and the claims are settled
against that model.  `APIClient.request` and the TOTP reference generator
`_generate_totp` are embedded directly from the Python sources.

Conventions of the shallow embedding:
* bytes are natural numbers `< 256`, machine words are naturals reduced
  `% 2^32` where overflow matters;
* opaque credentials (refresh tokens, trusted-device tokens) are modelled as
  natural numbers drawn from a monotone freshness counter;
* fallible computations return `Option`.
-/

set_option maxRecDepth 100000

namespace Chrono

/-! ## Bytes and 32-bit words -/

/-- Truncate a natural number to a 32-bit word. -/
def w32 (n : Nat) : Nat := n % 4294967296

/-- Rotate a 32-bit word left by `b` bits (for `n < 2^32`, `0 < b < 32`). -/
def rotl (b n : Nat) : Nat := w32 ((n <<< b) ||| (n >>> (32 - b)))

/-- Big-endian encoding of `n` on `k` bytes (`int.to_bytes(k, "big")`). -/
def natToBytesBE : Nat → Nat → List Nat
  | 0, _ => []
  | k + 1, n => natToBytesBE k (n / 256) ++ [n % 256]

/-- Big-endian decoding of a byte string (`int.from_bytes(bs, "big")`). -/
def bytesToNatBE (bs : List Nat) : Nat := bs.foldl (fun a b => a * 256 + b) 0

/-! ## SHA-1 (FIPS 180-1), used by the HMAC-SHA1 step of TOTP -/

/-- SHA-1 round function: choose / parity / majority depending on the round. -/
def sha1F (i b c d : Nat) : Nat :=
  if i < 20 then (b &&& c) ||| ((4294967295 - b) &&& d)
  else if i < 40 then b ^^^ c ^^^ d
  else if i < 60 then (b &&& c) ||| (b &&& d) ||| (c &&& d)
  else b ^^^ c ^^^ d

/-- SHA-1 round constants. -/
def sha1K (i : Nat) : Nat :=
  if i < 20 then 0x5A827999
  else if i < 40 then 0x6ED9EBA1
  else if i < 60 then 0x8F1BBCDC
  else 0xCA62C1D6

/-- SHA-1 padding: append `0x80`, zeros, and the 64-bit bit-length. -/
def sha1Pad (ms : List Nat) : List Nat :=
  ms ++ [128] ++ List.replicate ((120 - ((ms.length + 1) % 64)) % 64) 0
     ++ natToBytesBE 8 (8 * ms.length)

/-- Split a padded message into 64-byte blocks. -/
def chunks64 (l : List Nat) : List (List Nat) :=
  (List.range (l.length / 64)).map (fun i => (l.drop (64 * i)).take 64)

/-- The 16 initial 32-bit schedule words of a 64-byte block (big-endian). -/
def blockWords (block : List Nat) : List Nat :=
  (List.range 16).map (fun j => bytesToNatBE ((block.drop (4 * j)).take 4))

/-- One expansion step of the SHA-1 message schedule. -/
def sha1ExtendStep (ws : List Nat) : List Nat :=
  ws ++ [rotl 1 ((ws.getD (ws.length - 3) 0) ^^^ (ws.getD (ws.length - 8) 0)
      ^^^ (ws.getD (ws.length - 14) 0) ^^^ (ws.getD (ws.length - 16) 0))]

/-- Expand the 16 block words to the 80 schedule words. -/
def sha1Schedule (ws : List Nat) : List Nat := Nat.iterate sha1ExtendStep 64 ws

/-- The 80 SHA-1 compression rounds over the schedule words. -/
def sha1Rounds : List Nat → Nat → Nat × Nat × Nat × Nat × Nat → Nat × Nat × Nat × Nat × Nat
  | [], _, st => st
  | w :: rest, i, (a, b, c, d, e) =>
      sha1Rounds rest (i + 1)
        (w32 (rotl 5 a + sha1F i b c d + e + sha1K i + w), a, rotl 30 b, c, d)

/-- SHA-1 compression of one 64-byte block into the chaining state. -/
def sha1Compress (h : Nat × Nat × Nat × Nat × Nat) (block : List Nat) :
    Nat × Nat × Nat × Nat × Nat :=
  match h, sha1Rounds (sha1Schedule (blockWords block)) 0 h with
  | (h0, h1, h2, h3, h4), (a, b, c, d, e) =>
      (w32 (h0 + a), w32 (h1 + b), w32 (h2 + c), w32 (h3 + d), w32 (h4 + e))

/-- SHA-1 digest of a byte string: 20 bytes. -/
def sha1 (ms : List Nat) : List Nat :=
  match (chunks64 (sha1Pad ms)).foldl sha1Compress
      (0x67452301, 0xEFCDAB89, 0x98BADCFE, 0x10325476, 0xC3D2E1F0) with
  | (h0, h1, h2, h3, h4) =>
      natToBytesBE 4 h0 ++ natToBytesBE 4 h1 ++ natToBytesBE 4 h2
        ++ natToBytesBE 4 h3 ++ natToBytesBE 4 h4

/-- HMAC-SHA1 (RFC 2104) with 64-byte block size. -/
def hmacSha1 (key msg : List Nat) : List Nat :=
  let key' := if 64 < key.length then sha1 key else key
  let k0 := key' ++ List.replicate (64 - key'.length) 0
  sha1 ((k0.map (fun b => b ^^^ 0x5c)) ++ sha1 ((k0.map (fun b => b ^^^ 0x36)) ++ msg))

/-! ## Base32 decoding (`base64.b32decode(secret, casefold=True)`) -/

/-- Value of one base32 character (RFC 4648 alphabet, case-insensitive). -/
def b32Val (c : Char) : Option Nat :=
  let n := c.toNat
  if 65 ≤ n ∧ n ≤ 90 then some (n - 65)
  else if 97 ≤ n ∧ n ≤ 122 then some (n - 97)
  else if 50 ≤ n ∧ n ≤ 55 then some (n - 24)
  else none

/-- Base32-decode a string whose length is a multiple of 8 (unpadded input of
`base64.b32decode`); `none` on any character outside the alphabet. -/
def b32decode (s : String) : Option (List Nat) :=
  if s.length % 8 = 0 then
    (s.data.foldl (fun acc c => acc.bind (fun a => (b32Val c).map (fun v => a * 32 + v)))
        (some 0)).map
      (fun a => natToBytesBE (5 * (s.length / 8)) a)
  else none

/-! ## Decimal rendering (`str(n)` and `str.zfill`) -/

/-- Decimal digit list of a natural number, most significant first, with
explicit recursion fuel (the fuel bounds the number of digits). -/
def natDigitsAux : Nat → Nat → List Char
  | 0, _ => []
  | fuel + 1, n =>
      if n < 10 then [Nat.digitChar n]
      else natDigitsAux fuel (n / 10) ++ [Nat.digitChar (n % 10)]

/-- Decimal string of a natural number (`str(n)` in the source). -/
def natStr (n : Nat) : String := String.mk (natDigitsAux (n + 1) n)

/-- `s.zfill(d)`: left-pad with `'0'` to length `d`. -/
def zfill (d : Nat) (s : String) : String :=
  String.mk (List.replicate (d - s.length) '0' ++ s.data)

/-! ## TOTP -/

/-- Reference TOTP computation, embedded from `_generate_totp` in
`server/tests/auth/test_auth_flows.py` (period 30, 6 digits):
base32-decode the secret, HMAC-SHA1 over the 8-byte big-endian counter
`t / 30`, dynamic truncation at the offset given by the digest's last
nibble, mask to 31 bits, reduce modulo `10^6`, zero-pad to 6 digits. -/
def generate_totp (secret : String) (t : Nat) : Option String :=
  (b32decode secret).map (fun key =>
    let counter := t / 30
    let msg := natToBytesBE 8 counter
    let digest := hmacSha1 key msg
    let offset := (digest.getD (digest.length - 1) 0) &&& 0x0F
    let code_int := (bytesToNatBE ((digest.drop offset).take 4)) &&& 0x7FFFFFFF
    zfill 6 (natStr (code_int % (10 ^ 6))))

/-- Modelled from the spec (§4.2 `OTPService.VerifyTOTP`): the standard
dynamic truncation of HOTP — take the four digest bytes at the offset given
by the last nibble and mask to 31 bits. -/
def dynamicTruncate (digest : List Nat) : Nat :=
  (bytesToNatBE ((digest.drop ((digest.getD 19 0) &&& 0x0F)).take 4)) &&& 0x7FFFFFFF

/-- Modelled from the spec (§4.2): the 6-digit code of the 30-second window
containing `t` — HMAC-SHA1 over the window counter, dynamic truncation,
modulo `10^6`, zero-padded. -/
def totpCode (secret : String) (t : Nat) : Option String :=
  (b32decode secret).map (fun key =>
    zfill 6 (natStr (dynamicTruncate (hmacSha1 key (natToBytesBE 8 (t / 30))) % (10 ^ 6))))

/-- Modelled from the spec (§4.2 `VerifyTOTP(secret, code, at_time)`):
accept exactly the code of the current 30-second window. -/
def verifyTOTP (secret code : String) (t : Nat) : Bool :=
  match totpCode secret t with
  | some expected => code == expected
  | none => false

end Chrono

namespace Chrono

/-! ## Data model of the authentication core

Modelled from the spec: the server implementation is not part of the
sources, so the data model of §3 and the operations of §4 and §6 are
embedded from the specification's words.  Opaque credentials (refresh
tokens, trusted-device tokens, session ids, user ids) are natural numbers
drawn from the state's freshness counter `nonce`; stored secrets are kept
as hashes of the plaintext. -/

/-- Modelled from the spec (§4.3, §4.2): opaque credentials are "stored
hashed"; the hash is modelled as an injective tagging function. -/
def hashString (s : String) : String := "#" ++ s

/-- Modelled from the spec (§4.2): the plaintext of the `k`-th generated
single-use backup code, an opaque string distinct from every 6-digit TOTP
code (its length is `k + 7 ≥ 7`). -/
def bcName (k : Nat) : String := String.mk (List.replicate (k + 7) 'x')

/-- Modelled from the spec (§4.2): the base32 shared secret generated by
`EnableOTP` (a fixed valid RFC 4648 string in the model). -/
def otpSecretConst : String := "JBSWY3DPEHPK3PXP"

/-- §3 `User`: identity record owned by CredentialStore/OTPService. -/
structure User where
  id : Nat
  email : String
  passwordHash : String
  otpEnabled : Bool
  otpSecret : Option String
  backupCodes : List String
deriving Repr, DecidableEq

/-- §3 `RefreshToken`: session record of one link of a rotation chain. -/
structure RefreshTokenRec where
  token : Nat
  userId : Nat
  sessionId : Nat
  revoked : Bool
deriving Repr, DecidableEq

/-- §3 `TrustedDevice`: long-lived device credential letting a recognized
device skip OTP. -/
structure TrustedDevice where
  id : Nat
  userId : Nat
  token : Nat
  deviceName : String
  revoked : Bool
deriving Repr, DecidableEq

/-- §3 `LoginHistoryEntry`: audit record of one login attempt. -/
structure LoginHistoryEntry where
  sessionId : Option Nat
  userId : Option Nat
  loginStatus : String
  failureReason : Option String
  isActive : Bool
deriving Repr, DecidableEq

/-- §5: the shared store accessed by the stateless request handlers. -/
structure AuthState where
  users : List User
  refreshTokens : List RefreshTokenRec
  trustedDevices : List TrustedDevice
  loginHistory : List LoginHistoryEntry
  nonce : Nat
deriving Repr, DecidableEq

/-- §6 `/auth/login` request fields. -/
structure LoginRequest where
  email : String
  password : String
  otp_code : Option String
  device_token : Option Nat
  remember_device : Bool
  device_name : String
deriving Repr, DecidableEq

/-- §6 response envelope restricted to the fields the claims observe. -/
structure AuthResponse where
  status : Nat
  msg : String
  error : Option String
  accessToken : Option Nat
  refreshTokenOut : Option Nat
  trustedDeviceToken : Option Nat
deriving Repr, DecidableEq

/-- `needle` occurs as a substring of `hay`. -/
def ContainsSub (needle hay : String) : Prop :=
  ∃ pre post, hay = pre ++ needle ++ post

/-! ## Operations (AuthGateway, §4 and §6) -/

/-- Look up a user by email (emails are unique per §3). -/
def findUser (st : AuthState) (email : String) : Option User :=
  st.users.find? (fun u => u.email == email)

/-- §4.5 `RecordAttempt`: append one audit entry. -/
def recordAttempt (st : AuthState) (e : LoginHistoryEntry) : AuthState :=
  { st with loginHistory := st.loginHistory ++ [e] }

/-- A rejection response carrying no tokens. -/
def rejectResp (status : Nat) (msg : String) (err : Option String) : AuthResponse :=
  { status := status, msg := msg, error := err,
    accessToken := none, refreshTokenOut := none, trustedDeviceToken := none }

/-- Audit entry of a failed login attempt. -/
def failEntry (uid : Option Nat) (reason : String) : LoginHistoryEntry :=
  { sessionId := none, userId := uid, loginStatus := "failure",
    failureReason := some reason, isActive := false }

/-- §4.3 `ValidateAndConsume`: a device token authenticates iff some stored
device of this user carries it and is not revoked (checked per request). -/
def deviceLive (st : AuthState) (uid tok : Nat) : Bool :=
  st.trustedDevices.any (fun d => d.userId == uid && d.token == tok && !d.revoked)

/-- Replace the stored record of user `u.id` by `u`. -/
def updateUser (st : AuthState) (u : User) : AuthState :=
  { st with users := st.users.map (fun v => if v.id == u.id then u else v) }

/-- §4.2 `ConsumeBackupCode`: remove the matching hashed entry. -/
def removeBackupCode (u : User) (hashed : String) : User :=
  { u with backupCodes := u.backupCodes.filter (fun c => c != hashed) }

/-- §4.4 `IssueInitial` plus §4.6 step 5: issue a fresh access/refresh pair
and session id, append the success audit entry, and mint a trusted device
iff authentication came via OTP/backup with `remember_device = true`. -/
def authSuccess (st : AuthState) (u : User) (mintDevice : Bool) (devName : String) :
    AuthResponse × AuthState :=
  let n := st.nonce
  ({ status := 200, msg := "", error := none, accessToken := some (n + 2),
     refreshTokenOut := some (n + 1),
     trustedDeviceToken := if mintDevice then some (n + 4) else none },
   { st with
     nonce := n + 5,
     refreshTokens := st.refreshTokens ++
       [{ token := n + 1, userId := u.id, sessionId := n, revoked := false }],
     trustedDevices := if mintDevice then
         st.trustedDevices ++
           [{ id := n + 3, userId := u.id, token := n + 4,
              deviceName := devName, revoked := false }]
       else st.trustedDevices,
     loginHistory := st.loginHistory ++
       [{ sessionId := some n, userId := some u.id, loginStatus := "success",
          failureReason := none, isActive := true }] })

/-- §4.6 steps 3–5: the OTP stage of login, reached when `otp_enabled` and
no valid device token was presented. -/
def otpStage (st : AuthState) (u : User) (req : LoginRequest) (t : Nat) :
    AuthResponse × AuthState :=
  match req.otp_code with
  | none =>
      (rejectResp 400 "OTP code required" none,
       recordAttempt st (failEntry (some u.id) "otp_required"))
  | some code =>
      if verifyTOTP (u.otpSecret.getD "") code t then
        authSuccess st u req.remember_device req.device_name
      else if u.backupCodes.contains (hashString code) then
        authSuccess (updateUser st (removeBackupCode u (hashString code))) u
          req.remember_device req.device_name
      else
        (rejectResp 401 "Invalid OTP code" (some "invalid_otp"),
         recordAttempt st (failEntry (some u.id) "invalid_otp"))

/-- §4.6 login state machine (`POST /auth/login`): password check, then
device bypass / OTP stage / direct authentication; identical rejection for
unknown email and wrong password (§4.1). -/
def login (st : AuthState) (req : LoginRequest) (t : Nat) : AuthResponse × AuthState :=
  match findUser st req.email with
  | none =>
      (rejectResp 401 "Invalid email or password" (some "invalid_credentials"),
       recordAttempt st (failEntry none "invalid_credentials"))
  | some u =>
      if hashString req.password == u.passwordHash then
        if u.otpEnabled then
          match req.device_token with
          | some dt =>
              if deviceLive st u.id dt then authSuccess st u false req.device_name
              else otpStage st u req t
          | none => otpStage st u req t
        else authSuccess st u false req.device_name
      else
        (rejectResp 401 "Invalid email or password" (some "invalid_credentials"),
         recordAttempt st (failEntry (some u.id) "invalid_credentials"))

/-- §4.4 `Rotate` (`POST /auth/refresh`): if the presented token is stored
and not revoked, atomically revoke it and extend its chain with a fresh
token carrying the same session id; a revoked token fails with
`refresh_failed`, an unknown one with `invalid_token`. -/
def rotate (st : AuthState) (tok : Nat) : AuthResponse × AuthState :=
  match st.refreshTokens.find? (fun r => r.token == tok && !r.revoked) with
  | some r =>
      let n := st.nonce
      ({ status := 200, msg := "", error := none, accessToken := some (n + 1),
         refreshTokenOut := some n, trustedDeviceToken := none },
       { st with
         nonce := n + 2,
         refreshTokens :=
           (st.refreshTokens.map
             (fun q => if q.token == tok then { q with revoked := true } else q))
           ++ [{ token := n, userId := r.userId, sessionId := r.sessionId,
                 revoked := false }] })
  | none =>
      if st.refreshTokens.any (fun r => r.token == tok) then
        (rejectResp 401 "Token refresh failed" (some "refresh_failed"), st)
      else
        (rejectResp 401 "Invalid refresh token" (some "invalid_token"), st)

/-- §4.4 `Revoke` (`POST /auth/logout`): mark the presented token's whole
chain revoked and flip the matching login-history entries to inactive. -/
def logout (st : AuthState) (tokOpt : Option Nat) : AuthResponse × AuthState :=
  match tokOpt with
  | none => (rejectResp 200 "" none, st)
  | some tok =>
      (rejectResp 200 "" none,
       { st with
         refreshTokens := st.refreshTokens.map (fun r =>
           if st.refreshTokens.any (fun q => q.token == tok && q.sessionId == r.sessionId)
           then { r with revoked := true } else r),
         loginHistory := st.loginHistory.map (fun e =>
           if st.refreshTokens.any (fun q =>
               q.token == tok && some q.sessionId == e.sessionId)
           then { e with isActive := false } else e) })

/-- §6 `POST /auth/register`: create a user with a free email and issue the
initial session. -/
def registerUser (st : AuthState) (email password : String) : AuthResponse × AuthState :=
  match findUser st email with
  | some _ => (rejectResp 409 "Email already registered" (some "conflict"), st)
  | none =>
      let n := st.nonce
      let u : User :=
        { id := n, email := email, passwordHash := hashString password,
          otpEnabled := false, otpSecret := none, backupCodes := [] }
      authSuccess { st with users := st.users ++ [u], nonce := n + 1 } u false ""

/-- §4.2 `EnableOTP`: after password re-confirmation, set the shared secret
and a fresh fixed-size set of single-use backup codes (stored hashed). -/
def enableOTP (st : AuthState) (uid : Nat) (password : String) : AuthState :=
  match st.users.find? (fun u => u.id == uid) with
  | none => st
  | some u =>
      if hashString password == u.passwordHash then
        updateUser { st with nonce := st.nonce + 2 }
          { u with otpEnabled := true, otpSecret := some otpSecretConst,
                   backupCodes := [hashString (bcName st.nonce),
                                   hashString (bcName (st.nonce + 1))] }
      else st

/-- §4.2 `DisableOTP`: after password re-confirmation, clear the secret and
the backup codes. -/
def disableOTP (st : AuthState) (uid : Nat) (password : String) : AuthState :=
  match st.users.find? (fun u => u.id == uid) with
  | none => st
  | some u =>
      if hashString password == u.passwordHash then
        updateUser st
          { u with otpEnabled := false, otpSecret := none, backupCodes := [] }
      else st

/-- §4.3 `Revoke` (`DELETE /user/trusted-devices/{id}`): immediately and
irreversibly mark the device revoked. -/
def revokeDevice (st : AuthState) (devId : Nat) : AuthState :=
  { st with trustedDevices := st.trustedDevices.map (fun d =>
      if d.id == devId then { d with revoked := true } else d) }

/-! ## Interleaved executions -/

/-- One request hitting the shared store (§5: requests of an unbounded
worker pool interleave; each storage update of §4 is atomic). -/
inductive AuthOp where
  | login (req : LoginRequest) (t : Nat)
  | rotate (tok : Nat)
  | logout (tok : Option Nat)
  | registerUser (email password : String)
  | enableOTP (uid : Nat) (password : String)
  | disableOTP (uid : Nat) (password : String)
  | revokeDevice (id : Nat)
deriving Repr, DecidableEq

/-- Effect of one request on the store. -/
def applyOp (st : AuthState) : AuthOp → AuthState
  | .login req t => (login st req t).2
  | .rotate tok => (rotate st tok).2
  | .logout tok => (logout st tok).2
  | .registerUser email password => (registerUser st email password).2
  | .enableOTP uid password => (enableOTP st uid password)
  | .disableOTP uid password => (disableOTP st uid password)
  | .revokeDevice devId => (revokeDevice st devId)

/-- Effect of a sequence of interleaved requests. -/
def runOps (st : AuthState) (ops : List AuthOp) : AuthState := ops.foldl applyOp st

/-! ## Well-formedness of the store -/

/-- Every credential stored in the state was drawn below the freshness
counter, trusted-device tokens are pairwise distinct, and every stored
backup code is the hash of a generated plaintext code. -/
def WF (st : AuthState) : Prop :=
  0 < st.nonce ∧
  (∀ r ∈ st.refreshTokens, r.token < st.nonce ∧ r.sessionId < st.nonce) ∧
  (∀ d ∈ st.trustedDevices, d.token < st.nonce ∧ d.id < st.nonce) ∧
  (st.trustedDevices.map (fun d => d.token)).Nodup ∧
  (∀ e ∈ st.loginHistory, e.sessionId.getD 0 < st.nonce) ∧
  (∀ u ∈ st.users, ∀ c ∈ u.backupCodes, ∃ k ∈ List.range st.nonce, c = hashString (bcName k))

instance (st : AuthState) : Decidable (WF st) := by
  unfold WF
  infer_instance

/-- A refresh-token value that is stored and wholly revoked (§4.4: a
rotated or logged-out token). -/
def TokenDead (st : AuthState) (tok : Nat) : Prop :=
  (∃ r ∈ st.refreshTokens, r.token = tok) ∧
  ∀ r ∈ st.refreshTokens, r.token = tok → r.revoked = true

/-- A device-token value that is stored and wholly revoked (§4.3). -/
def DeviceDead (st : AuthState) (tok : Nat) : Prop :=
  (∃ d ∈ st.trustedDevices, d.token = tok) ∧
  ∀ d ∈ st.trustedDevices, d.token = tok → d.revoked = true

/-- A consumed backup-code plaintext: a generated code whose hash no longer
appears among the codes of user `uid` (§4.2 single-use). -/
def CodeDead (st : AuthState) (uid : Nat) (c : String) : Prop :=
  (∃ k ∈ List.range st.nonce, c = bcName k) ∧
  ∀ u ∈ st.users, u.id = uid → hashString c ∉ u.backupCodes

end Chrono

namespace Chrono

/-! ## `APIClient.request` (embedded from `server/tests/utils/api.py`)

The transport (`self.session.request`) is modelled as a function from the
0-based attempt number to what that send produces: an HTTP response with a
status code, a `requests.ConnectionError`, a `requests.Timeout`, or any
other exception. -/

/-- What one send over the wire produces. -/
inductive Outcome where
  | response (status : Nat)
  | connError
  | timeoutErr
  | otherExc
deriving Repr, DecidableEq

/-- How `APIClient.request` terminates. -/
inductive ReqResult where
  | ok (status : Nat)
  | errStatus (status : Nat)
  | errExhausted
  | uncaught
deriving Repr, DecidableEq

/-- The retry loop of `APIClient.request` (lines 59–87): `remaining` is
`max_retries - attempt`, `sends` counts the sends already made.  A received
response is returned (or, on an `expected_status` mismatch, turned into an
`APIError`) without re-entering the loop; only `ConnectionError`/`Timeout`
increment `attempt` and retry; other exceptions propagate. -/
def requestAux (transport : Nat → Outcome) (expected : Option Nat) :
    Nat → Nat → ReqResult × Nat
  | 0, sends => (.errExhausted, sends)
  | remaining + 1, sends =>
      match transport sends with
      | .response status =>
          match expected with
          | some exp =>
              if status = exp then (.ok status, sends + 1)
              else (.errStatus status, sends + 1)
          | none => (.ok status, sends + 1)
      | .connError => requestAux transport expected remaining (sends + 1)
      | .timeoutErr => requestAux transport expected remaining (sends + 1)
      | .otherExc => (.uncaught, sends + 1)

/-- `APIClient.request(method, path, ..., expected_status)`: run the retry
loop from `attempt = 0`; after `max_retries` retryable failures raise
`APIError` (`errExhausted`).  Returns the outcome and the number of sends. -/
def request (transport : Nat → Outcome) (maxRetries : Nat) (expected : Option Nat) :
    ReqResult × Nat :=
  requestAux transport expected maxRetries 0

/-- A transport outcome on which the `except` clause retries. -/
def Retryable (o : Outcome) : Prop := o = .connError ∨ o = .timeoutErr

end Chrono

namespace Chrono

/-! ## Concrete store used by the witnesses -/

/-- Witness user without OTP. -/
def wUser : User :=
  { id := 0, email := "alice@example.com", passwordHash := hashString "pw1",
    otpEnabled := false, otpSecret := none, backupCodes := [] }

/-- Witness user with OTP enabled, one backup code. -/
def wOtpUser : User :=
  { id := 1, email := "bob@example.com", passwordHash := hashString "pw2",
    otpEnabled := true, otpSecret := some otpSecretConst,
    backupCodes := [hashString (bcName 2)] }

/-- Witness trusted device of `wOtpUser`. -/
def wDevice : TrustedDevice :=
  { id := 3, userId := 1, token := 4, deviceName := "laptop", revoked := false }

/-- Witness store: two users, one live refresh token, one trusted device. -/
def wState : AuthState :=
  { users := [wUser, wOtpUser],
    refreshTokens := [{ token := 5, userId := 0, sessionId := 6, revoked := false }],
    trustedDevices := [wDevice],
    loginHistory := [],
    nonce := 7 }

end Chrono

namespace Chrono

/-! ## Supporting lemmas: lengths and injectivity -/

theorem natToBytesBE_length (k n : Nat) : (natToBytesBE k n).length = k := by
  induction k generalizing n with
  | zero => rfl
  | succ k ih => simp [natToBytesBE, ih]

theorem sha1_length (ms : List Nat) : (sha1 ms).length = 20 := by
  unfold sha1
  rcases (chunks64 (sha1Pad ms)).foldl sha1Compress
      (0x67452301, 0xEFCDAB89, 0x98BADCFE, 0x10325476, 0xC3D2E1F0) with
    ⟨h0, h1, h2, h3, h4⟩
  simp [natToBytesBE_length]

theorem hmacSha1_length (key msg : List Nat) : (hmacSha1 key msg).length = 20 := by
  unfold hmacSha1
  exact sha1_length _

/-- The reference computation of the test-suite and the spec-modelled
window code agree. -/
theorem generate_totp_eq_totpCode (s : String) (t : Nat) :
    generate_totp s t = totpCode s t := by
  unfold generate_totp totpCode dynamicTruncate
  cases b32decode s with
  | none => rfl
  | some key => simp [hmacSha1_length]

theorem natDigitsAux_length_le (fuel n k : Nat) (hn : n < 10 ^ k) (hk : 1 ≤ k) :
    (natDigitsAux fuel n).length ≤ k := by
  induction fuel generalizing n k with
  | zero => simp [natDigitsAux]
  | succ fuel ih =>
    by_cases h10 : n < 10
    · simp [natDigitsAux, h10]; omega
    · have hk2 : 2 ≤ k := by
        by_contra hcon
        have : k = 1 := by omega
        subst this
        simp at hn
        omega
      have hdiv : n / 10 < 10 ^ (k - 1) := by
        have hpow : 10 ^ k = 10 ^ (k - 1) * 10 := by
          have : k - 1 + 1 = k := by omega
          calc 10 ^ k = 10 ^ (k - 1 + 1) := by rw [this]
            _ = 10 ^ (k - 1) * 10 := by rw [pow_succ]
        exact Nat.div_lt_of_lt_mul (by omega)
      have := ih (n / 10) (k - 1) hdiv (by omega)
      simp [natDigitsAux, h10]
      omega

theorem natStr_length_le (n k : Nat) (hn : n < 10 ^ k) (hk : 1 ≤ k) :
    (natStr n).length ≤ k :=
  natDigitsAux_length_le (n + 1) n k hn hk

theorem zfill_length (d : Nat) (s : String) (h : s.length ≤ d) :
    (zfill d s).length = d := by
  have h2 : s.data.length = s.length := rfl
  simp only [zfill, String.length_mk, List.length_append, List.length_replicate, h2]
  omega

theorem totpCode_length (s : String) (t : Nat) (e : String)
    (h : totpCode s t = some e) : e.length = 6 := by
  unfold totpCode at h
  cases hdec : b32decode s with
  | none => rw [hdec] at h; simp at h
  | some key =>
      rw [hdec] at h
      simp at h
      subst h
      exact zfill_length 6 _
        (natStr_length_le _ 6 (Nat.mod_lt _ (by norm_num)) (by norm_num))

theorem bcName_length (k : Nat) : (bcName k).length = k + 7 := by
  simp [bcName, String.length_mk]

theorem verifyTOTP_false_of_length (s code : String) (t : Nat)
    (h : code.length ≠ 6) : verifyTOTP s code t = false := by
  unfold verifyTOTP
  cases hc : totpCode s t with
  | none => rfl
  | some expected =>
      simp only []
      by_contra hcon
      simp at hcon
      exact h (hcon ▸ totpCode_length s t expected hc)

theorem verifyTOTP_bcName_false (s : String) (k t : Nat) :
    verifyTOTP s (bcName k) t = false :=
  verifyTOTP_false_of_length s _ t (by rw [bcName_length]; omega)

theorem hashString_inj {a b : String} (h : hashString a = hashString b) : a = b := by
  unfold hashString at h
  cases a with
  | mk la =>
      cases b with
      | mk lb =>
          have hdata := congrArg String.data h
          simp only [String.data_append] at hdata
          simp at hdata
          exact congrArg String.mk hdata

theorem bcName_inj {j k : Nat} (h : bcName j = bcName k) : j = k := by
  have := congrArg String.length h
  rw [bcName_length, bcName_length] at this
  omega

end Chrono

namespace Chrono

/-! ## Shape of the state after one request -/

/-- Every login leaves the store in one of three shapes: one failure audit
entry appended, a plain issuance, or an issuance after consuming a backup
code of the authenticated user. -/
theorem login_snd_cases (st : AuthState) (req : LoginRequest) (t : Nat) :
    (∃ uid reason, (login st req t).2 = recordAttempt st (failEntry uid reason)) ∨
    (∃ u m, u ∈ st.users ∧ (login st req t).2 = (authSuccess st u m req.device_name).2) ∨
    (∃ u hashed m, u ∈ st.users ∧
      (login st req t).2 =
        (authSuccess (updateUser st (removeBackupCode u hashed)) u m req.device_name).2) := by
  unfold login
  cases hf : findUser st req.email with
  | none => exact Or.inl ⟨none, "invalid_credentials", rfl⟩
  | some u =>
      have hu : u ∈ st.users := List.mem_of_find?_eq_some hf
      dsimp only
      by_cases hpw : (hashString req.password == u.passwordHash) = true
      · rw [if_pos hpw]
        by_cases hotp : u.otpEnabled = true
        · rw [if_pos hotp]
          have hstage : (∃ uid reason,
                (otpStage st u req t).2 = recordAttempt st (failEntry uid reason)) ∨
              (∃ m, (otpStage st u req t).2 = (authSuccess st u m req.device_name).2) ∨
              (∃ hashed m, (otpStage st u req t).2 =
                (authSuccess (updateUser st (removeBackupCode u hashed)) u m
                  req.device_name).2) := by
            unfold otpStage
            cases hc : req.otp_code with
            | none => exact Or.inl ⟨some u.id, "otp_required", rfl⟩
            | some code =>
                dsimp only
                by_cases hv : verifyTOTP (u.otpSecret.getD "") code t = true
                · rw [if_pos hv]
                  exact Or.inr (Or.inl ⟨req.remember_device, rfl⟩)
                · rw [if_neg (by simp [hv])]
                  by_cases hb : u.backupCodes.contains (hashString code) = true
                  · rw [if_pos hb]
                    exact Or.inr (Or.inr ⟨hashString code, req.remember_device, rfl⟩)
                  · rw [if_neg (by simp_all)]
                    exact Or.inl ⟨some u.id, "invalid_otp", rfl⟩
          cases hdt : req.device_token with
          | none =>
              rcases hstage with ⟨uid, reason, h⟩ | ⟨m, h⟩ | ⟨hashed, m, h⟩
              · exact Or.inl ⟨uid, reason, h⟩
              · exact Or.inr (Or.inl ⟨u, m, hu, h⟩)
              · exact Or.inr (Or.inr ⟨u, hashed, m, hu, h⟩)
          | some dt =>
              dsimp only
              by_cases hlive : deviceLive st u.id dt = true
              · rw [if_pos hlive]
                exact Or.inr (Or.inl ⟨u, false, hu, rfl⟩)
              · rw [if_neg (by simp [hlive])]
                rcases hstage with ⟨uid, reason, h⟩ | ⟨m, h⟩ | ⟨hashed, m, h⟩
                · exact Or.inl ⟨uid, reason, h⟩
                · exact Or.inr (Or.inl ⟨u, m, hu, h⟩)
                · exact Or.inr (Or.inr ⟨u, hashed, m, hu, h⟩)
        · rw [if_neg hotp]
          exact Or.inr (Or.inl ⟨u, false, hu, rfl⟩)
      · rw [if_neg hpw]
        exact Or.inl ⟨some u.id, "invalid_credentials", rfl⟩

end Chrono

namespace Chrono

/-! ## Preservation of well-formedness -/

theorem WF_recordAttempt (st : AuthState) (uid : Option Nat) (reason : String)
    (hWF : WF st) : WF (recordAttempt st (failEntry uid reason)) := by
  obtain ⟨h0, hrt, hdev, hnd, hhist, hbc⟩ := hWF
  refine ⟨h0, hrt, hdev, hnd, ?_, hbc⟩
  intro e he
  simp only [recordAttempt, List.mem_append, List.mem_singleton] at he
  rcases he with he | he
  · exact hhist e he
  · subst he; simpa [failEntry] using h0

theorem WF_authSuccess (st : AuthState) (u : User) (m : Bool) (dn : String)
    (hWF : WF st) : WF (authSuccess st u m dn).2 := by
  obtain ⟨h0, hrt, hdev, hnd, hhist, hbc⟩ := hWF
  unfold authSuccess WF
  dsimp only
  refine ⟨by omega, ?_, ?_, ?_, ?_, ?_⟩
  · intro r hr
    simp only [List.mem_append, List.mem_singleton] at hr
    rcases hr with hr | hr
    · have := hrt r hr; omega
    · subst hr; simp
  · intro d hd
    by_cases hm : m = true
    · simp only [hm, if_true, List.mem_append, List.mem_singleton] at hd
      rcases hd with hd | hd
      · have := hdev d hd; omega
      · subst hd; simp
    · simp only [eq_false_of_ne_true hm, if_false] at hd
      have := hdev d hd; omega
  · by_cases hm : m = true
    · simp only [hm, if_true, List.map_append, List.map_cons, List.map_nil]
      rw [List.nodup_append]
      refine ⟨hnd, List.nodup_singleton _, ?_⟩
      intro x hx hx'
      simp only [List.mem_map] at hx
      obtain ⟨d, hd, hxd⟩ := hx
      have := hdev d hd
      simp only [List.mem_singleton] at hx'
      omega
    · simpa [eq_false_of_ne_true hm] using hnd
  · intro e he
    simp only [List.mem_append, List.mem_singleton] at he
    rcases he with he | he
    · have := hhist e he; omega
    · subst he; simp
  · intro v hv c hc
    obtain ⟨k, hk, hck⟩ := hbc v hv c hc
    exact ⟨k, by simp only [List.mem_range] at hk ⊢; omega, hck⟩

theorem WF_updateUser_subset (st : AuthState) (u u' : User)
    (hu : u ∈ st.users) (hsub : ∀ c ∈ u'.backupCodes, c ∈ u.backupCodes)
    (hWF : WF st) : WF (updateUser st u') := by
  obtain ⟨h0, hrt, hdev, hnd, hhist, hbc⟩ := hWF
  refine ⟨h0, hrt, hdev, hnd, hhist, ?_⟩
  intro v hv c hc
  simp only [updateUser, List.mem_map] at hv
  obtain ⟨w, hw, hvw⟩ := hv
  by_cases hid : (w.id == u'.id) = true
  · rw [if_pos hid] at hvw
    subst hvw
    exact hbc u hu c (hsub c hc)
  · rw [if_neg hid] at hvw
    subst hvw
    exact hbc w hw c hc

theorem WF_applyOp (st : AuthState) (op : AuthOp) (hWF : WF st) :
    WF (applyOp st op) := by
  cases op with
  | login req t =>
      rcases login_snd_cases st req t with ⟨uid, reason, h⟩ | ⟨u, m, hu, h⟩
        | ⟨u, hashed, m, hu, h⟩
      · rw [applyOp, h]; exact WF_recordAttempt st uid reason hWF
      · rw [applyOp, h]; exact WF_authSuccess st u m req.device_name hWF
      · rw [applyOp, h]
        exact WF_authSuccess _ u m req.device_name
          (WF_updateUser_subset st u (removeBackupCode u hashed) hu
            (fun c hc => List.mem_of_mem_filter hc) hWF)
  | rotate tok =>
      obtain ⟨h0, hrt, hdev, hnd, hhist, hbc⟩ := hWF
      rw [applyOp]
      unfold rotate
      cases hf : st.refreshTokens.find? (fun r => r.token == tok && !r.revoked) with
      | none =>
          dsimp only
          split
          · exact ⟨h0, hrt, hdev, hnd, hhist, hbc⟩
          · exact ⟨h0, hrt, hdev, hnd, hhist, hbc⟩
      | some r =>
          have hr : r ∈ st.refreshTokens := List.mem_of_find?_eq_some hf
          have hrW := hrt r hr
          unfold WF
          dsimp only
          refine ⟨by omega, ?_, ?_, hnd, ?_, ?_⟩
          · intro q hq
            simp only [List.mem_append, List.mem_map, List.mem_singleton] at hq
            rcases hq with ⟨p, hp, hpq⟩ | hq
            · have := hrt p hp
              by_cases ht : (p.token == tok) = true
              · rw [if_pos ht] at hpq; subst hpq; simp; omega
              · rw [if_neg ht] at hpq; subst hpq; omega
            · subst hq; simp; omega
          · intro d hd; have := hdev d hd; omega
          · intro e he; have := hhist e he; omega
          · intro v hv c hc
            obtain ⟨k, hk, hck⟩ := hbc v hv c hc
            exact ⟨k, by simp only [List.mem_range] at hk ⊢; omega, hck⟩
  | logout tokOpt =>
      obtain ⟨h0, hrt, hdev, hnd, hhist, hbc⟩ := hWF
      rw [applyOp]
      cases tokOpt with
      | none => exact ⟨h0, hrt, hdev, hnd, hhist, hbc⟩
      | some tok =>
          unfold logout WF
          dsimp only
          refine ⟨h0, ?_, hdev, hnd, ?_, hbc⟩
          · intro q hq
            simp only [List.mem_map] at hq
            obtain ⟨p, hp, hpq⟩ := hq
            have := hrt p hp
            split at hpq
            · subst hpq; simpa using this
            · subst hpq; exact this
          · intro e he
            simp only [List.mem_map] at he
            obtain ⟨f, hf, hfe⟩ := he
            have := hhist f hf
            split at hfe <;> (subst hfe; simpa using this)
  | registerUser email password =>
      rw [applyOp]
      unfold registerUser
      cases hf : findUser st email with
      | some u => exact hWF
      | none =>
          obtain ⟨h0, hrt, hdev, hnd, hhist, hbc⟩ := hWF
          dsimp only
          apply WF_authSuccess
          unfold WF
          dsimp only
          refine ⟨by omega, ?_, ?_, hnd, ?_, ?_⟩
          · intro r hr; have := hrt r hr; omega
          · intro d hd; have := hdev d hd; omega
          · intro e he; have := hhist e he; omega
          · intro v hv c hc
            simp only [List.mem_append, List.mem_singleton] at hv
            rcases hv with hv | hv
            · obtain ⟨k, hk, hck⟩ := hbc v hv c hc
              exact ⟨k, by simp only [List.mem_range] at hk ⊢; omega, hck⟩
            · subst hv; simp at hc
  | enableOTP uid password =>
      rw [applyOp]
      unfold enableOTP
      cases hf : st.users.find? (fun u => u.id == uid) with
      | none => exact hWF
      | some u =>
          dsimp only
          split
          · obtain ⟨h0, hrt, hdev, hnd, hhist, hbc⟩ := hWF
            have hu : u ∈ st.users := List.mem_of_find?_eq_some hf
            unfold WF updateUser
            dsimp only
            refine ⟨by omega, ?_, ?_, hnd, ?_, ?_⟩
            · intro r hr; have := hrt r hr; omega
            · intro d hd; have := hdev d hd; omega
            · intro e he; have := hhist e he; omega
            · intro v hv c hc
              simp only [updateUser, List.mem_map] at hv
              obtain ⟨w, hw, hvw⟩ := hv
              by_cases hid : (w.id == u.id) = true
              · rw [if_pos hid] at hvw
                subst hvw
                simp only [List.mem_cons, List.mem_singleton, List.not_mem_nil] at hc
                rcases hc with hc | hc | hc
                · exact ⟨st.nonce, by simp only [List.mem_range]; omega, hc⟩
                · exact ⟨st.nonce + 1, by simp only [List.mem_range]; omega, hc⟩
                · exact absurd hc (by simp)
              · rw [if_neg hid] at hvw
                subst hvw
                obtain ⟨k, hk, hck⟩ := hbc w hw c hc
                exact ⟨k, by simp only [List.mem_range] at hk ⊢; omega, hck⟩
          · exact hWF
  | disableOTP uid password =>
      rw [applyOp]
      unfold disableOTP
      cases hf : st.users.find? (fun u => u.id == uid) with
      | none => exact hWF
      | some u =>
          dsimp only
          split
          · exact WF_updateUser_subset st u _ (List.mem_of_find?_eq_some hf)
              (fun c hc => by simp at hc) hWF
          · exact hWF
  | revokeDevice devId =>
      obtain ⟨h0, hrt, hdev, hnd, hhist, hbc⟩ := hWF
      rw [applyOp]
      unfold revokeDevice WF
      have hmap : ((st.trustedDevices.map (fun d =>
          if d.id == devId then { d with revoked := true } else d)).map
            (fun d => d.token)) = st.trustedDevices.map (fun d => d.token) := by
        rw [List.map_map]
        apply List.map_congr_left
        intro d _
        by_cases h : d.id = devId <;> simp [h]
      refine ⟨h0, hrt, ?_, ?_, hhist, hbc⟩
      · intro d hd
        simp only [List.mem_map] at hd
        obtain ⟨p, hp, hpd⟩ := hd
        have := hdev p hp
        split at hpd <;> (subst hpd; simpa using this)
      · rw [hmap]; exact hnd

theorem WF_runOps (st : AuthState) (ops : List AuthOp) (hWF : WF st) :
    WF (runOps st ops) := by
  induction ops generalizing st with
  | nil => exact hWF
  | cons op ops ih => exact ih (applyOp st op) (WF_applyOp st op hWF)

end Chrono

namespace Chrono

/-! ## Monotone facts: freshness, revocation, consumption -/

theorem nonce_le_applyOp (st : AuthState) (op : AuthOp) :
    st.nonce ≤ (applyOp st op).nonce := by
  cases op with
  | login req t =>
      rcases login_snd_cases st req t with ⟨uid, reason, h⟩ | ⟨u, m, _, h⟩
        | ⟨u, hashed, m, _, h⟩ <;>
        (rw [applyOp, h]; simp [recordAttempt, authSuccess, updateUser])
  | rotate tok =>
      rw [applyOp]
      unfold rotate
      cases hf : st.refreshTokens.find? (fun r => r.token == tok && !r.revoked) with
      | none => dsimp only; split <;> simp
      | some r => dsimp only; omega
  | logout tokOpt =>
      rw [applyOp]
      cases tokOpt with
      | none => exact Nat.le_refl _
      | some tok => unfold logout; dsimp only; exact Nat.le_refl _
  | registerUser email password =>
      rw [applyOp]
      unfold registerUser
      cases hf : findUser st email with
      | some u => exact Nat.le_refl _
      | none => dsimp only; simp [authSuccess]; omega
  | enableOTP uid password =>
      rw [applyOp]
      unfold enableOTP
      cases hf : st.users.find? (fun u => u.id == uid) with
      | none => exact Nat.le_refl _
      | some u => dsimp only; split <;> simp [updateUser]
  | disableOTP uid password =>
      rw [applyOp]
      unfold disableOTP
      cases hf : st.users.find? (fun u => u.id == uid) with
      | none => exact Nat.le_refl _
      | some u => dsimp only; split <;> simp [updateUser]
  | revokeDevice devId =>
      rw [applyOp]; unfold revokeDevice; exact Nat.le_refl _

theorem TokenDead_authSuccess (st : AuthState) (u : User) (m : Bool) (dn : String)
    (tok : Nat) (hlt : tok < st.nonce) (hd : TokenDead st tok) :
    TokenDead (authSuccess st u m dn).2 tok := by
  obtain ⟨⟨r0, hr0, ht0⟩, hall⟩ := hd
  unfold authSuccess TokenDead
  dsimp only
  constructor
  · exact ⟨r0, by simp [hr0], ht0⟩
  · intro r hr htok
    simp only [List.mem_append, List.mem_singleton] at hr
    rcases hr with hr | hr
    · exact hall r hr htok
    · subst hr; simp at htok; omega

theorem TokenDead_applyOp (st : AuthState) (op : AuthOp) (tok : Nat)
    (hWF : WF st) (hd : TokenDead st tok) : TokenDead (applyOp st op) tok := by
  have hlt : tok < st.nonce := by
    obtain ⟨⟨r0, hr0, ht0⟩, _⟩ := hd
    have := hWF.2.1 r0 hr0
    omega
  cases op with
  | login req t =>
      rcases login_snd_cases st req t with ⟨uid, reason, h⟩ | ⟨u, m, _, h⟩
        | ⟨u, hashed, m, _, h⟩
      · rw [applyOp, h]; exact hd
      · rw [applyOp, h]; exact TokenDead_authSuccess st u m req.device_name tok hlt hd
      · rw [applyOp, h]
        exact TokenDead_authSuccess _ u m req.device_name tok hlt hd
  | rotate tok' =>
      obtain ⟨⟨r0, hr0, ht0⟩, hall⟩ := hd
      rw [applyOp]
      unfold rotate
      cases hf : st.refreshTokens.find? (fun r => r.token == tok' && !r.revoked) with
      | none => dsimp only; split <;> exact ⟨⟨r0, hr0, ht0⟩, hall⟩
      | some r =>
          dsimp only
          constructor
          · refine ⟨if r0.token == tok' then { r0 with revoked := true } else r0, ?_, ?_⟩
            · simp only [List.mem_append, List.mem_map]
              exact Or.inl ⟨r0, hr0, rfl⟩
            · split <;> simpa using ht0
          · intro q hq htq
            simp only [List.mem_append, List.mem_map, List.mem_singleton] at hq
            rcases hq with ⟨p, hp, hpq⟩ | hq
            · by_cases ht : (p.token == tok') = true
              · rw [if_pos ht] at hpq; subst hpq; rfl
              · rw [if_neg ht] at hpq; subst hpq; exact hall p hp htq
            · subst hq; simp at htq; omega
  | logout tokOpt =>
      obtain ⟨⟨r0, hr0, ht0⟩, hall⟩ := hd
      rw [applyOp]
      cases tokOpt with
      | none => exact ⟨⟨r0, hr0, ht0⟩, hall⟩
      | some tok' =>
          unfold logout
          dsimp only
          constructor
          · refine ⟨_, List.mem_map_of_mem _ hr0, ?_⟩
            split <;> simpa using ht0
          · intro q hq htq
            simp only [List.mem_map] at hq
            obtain ⟨p, hp, hpq⟩ := hq
            split at hpq
            · subst hpq; rfl
            · subst hpq; exact hall p hp htq
  | registerUser email password =>
      rw [applyOp]
      unfold registerUser
      cases hf : findUser st email with
      | some u => exact hd
      | none =>
          dsimp only
          exact TokenDead_authSuccess _ _ false "" tok (by simpa using by omega) hd
  | enableOTP uid password =>
      rw [applyOp]
      unfold enableOTP
      cases hf : st.users.find? (fun u => u.id == uid) with
      | none => exact hd
      | some u => dsimp only; split <;> exact hd
  | disableOTP uid password =>
      rw [applyOp]
      unfold disableOTP
      cases hf : st.users.find? (fun u => u.id == uid) with
      | none => exact hd
      | some u => dsimp only; split <;> exact hd
  | revokeDevice devId => rw [applyOp]; exact hd

theorem TokenDead_runOps (st : AuthState) (ops : List AuthOp) (tok : Nat)
    (hWF : WF st) (hd : TokenDead st tok) : TokenDead (runOps st ops) tok := by
  induction ops generalizing st with
  | nil => exact hd
  | cons op ops ih =>
      exact ih (applyOp st op) (WF_applyOp st op hWF) (TokenDead_applyOp st op tok hWF hd)

end Chrono

namespace Chrono

theorem DeviceDead_authSuccess (st : AuthState) (u : User) (m : Bool) (dn : String)
    (tok : Nat) (hlt : tok < st.nonce) (hd : DeviceDead st tok) :
    DeviceDead (authSuccess st u m dn).2 tok := by
  obtain ⟨⟨d0, hd0, ht0⟩, hall⟩ := hd
  unfold authSuccess DeviceDead
  dsimp only
  by_cases hm : m = true
  · simp only [hm, if_true]
    constructor
    · exact ⟨d0, by simp [hd0], ht0⟩
    · intro d hdm htok
      simp only [List.mem_append, List.mem_singleton] at hdm
      rcases hdm with hdm | hdm
      · exact hall d hdm htok
      · subst hdm; simp at htok; omega
  · simp only [eq_false_of_ne_true hm, if_false]
    exact ⟨⟨d0, hd0, ht0⟩, hall⟩

theorem DeviceDead_applyOp (st : AuthState) (op : AuthOp) (tok : Nat)
    (hWF : WF st) (hd : DeviceDead st tok) : DeviceDead (applyOp st op) tok := by
  have hlt : tok < st.nonce := by
    obtain ⟨⟨d0, hd0, ht0⟩, _⟩ := hd
    have := hWF.2.2.1 d0 hd0
    omega
  cases op with
  | login req t =>
      rcases login_snd_cases st req t with ⟨uid, reason, h⟩ | ⟨u, m, _, h⟩
        | ⟨u, hashed, m, _, h⟩
      · rw [applyOp, h]; exact hd
      · rw [applyOp, h]; exact DeviceDead_authSuccess st u m req.device_name tok hlt hd
      · rw [applyOp, h]
        exact DeviceDead_authSuccess _ u m req.device_name tok hlt hd
  | rotate tok' =>
      rw [applyOp]
      unfold rotate
      cases hf : st.refreshTokens.find? (fun r => r.token == tok' && !r.revoked) with
      | none => dsimp only; split <;> exact hd
      | some r => dsimp only; exact hd
  | logout tokOpt =>
      rw [applyOp]
      cases tokOpt with
      | none => exact hd
      | some tok' => unfold logout; dsimp only; exact hd
  | registerUser email password =>
      rw [applyOp]
      unfold registerUser
      cases hf : findUser st email with
      | some u => exact hd
      | none =>
          dsimp only
          exact DeviceDead_authSuccess _ _ false "" tok (by simpa using by omega) hd
  | enableOTP uid password =>
      rw [applyOp]
      unfold enableOTP
      cases hf : st.users.find? (fun u => u.id == uid) with
      | none => exact hd
      | some u => dsimp only; split <;> exact hd
  | disableOTP uid password =>
      rw [applyOp]
      unfold disableOTP
      cases hf : st.users.find? (fun u => u.id == uid) with
      | none => exact hd
      | some u => dsimp only; split <;> exact hd
  | revokeDevice devId =>
      obtain ⟨⟨d0, hd0, ht0⟩, hall⟩ := hd
      rw [applyOp]
      unfold revokeDevice
      constructor
      · refine ⟨_, List.mem_map_of_mem _ hd0, ?_⟩
        split <;> simpa using ht0
      · intro d hdm htok
        simp only [List.mem_map] at hdm
        obtain ⟨p, hp, hpd⟩ := hdm
        split at hpd
        · subst hpd; rfl
        · subst hpd; exact hall p hp htok

theorem DeviceDead_runOps (st : AuthState) (ops : List AuthOp) (tok : Nat)
    (hWF : WF st) (hd : DeviceDead st tok) : DeviceDead (runOps st ops) tok := by
  induction ops generalizing st with
  | nil => exact hd
  | cons op ops ih =>
      exact ih (applyOp st op) (WF_applyOp st op hWF) (DeviceDead_applyOp st op tok hWF hd)

theorem CodeDead_applyOp (st : AuthState) (op : AuthOp) (uid : Nat) (c : String)
    (_hWF : WF st) (hd : CodeDead st uid c) : CodeDead (applyOp st op) uid c := by
  obtain ⟨⟨k0, hk0, hck0⟩, hall⟩ := hd
  have hfresh : ∃ k ∈ List.range (applyOp st op).nonce, c = bcName k := by
    refine ⟨k0, ?_, hck0⟩
    have := nonce_le_applyOp st op
    simp only [List.mem_range] at hk0 ⊢
    omega
  refine ⟨hfresh, ?_⟩
  have hk0lt : k0 < st.nonce := by simpa using hk0
  cases op with
  | login req t =>
      rcases login_snd_cases st req t with ⟨uidf, reason, h⟩ | ⟨u, m, _, h⟩
        | ⟨u, hashed, m, _, h⟩
      · rw [applyOp, h]; exact hall
      · rw [applyOp, h]; unfold authSuccess; dsimp only; exact hall
      · rw [applyOp, h]
        unfold authSuccess
        dsimp only
        intro v hv hvid
        simp only [updateUser, List.mem_map] at hv
        obtain ⟨w, hw, hwv⟩ := hv
        split at hwv
        · subst hwv
          intro hmem
          have hmem' : hashString c ∈ u.backupCodes := List.mem_of_mem_filter hmem
          exact hall u (by assumption) (by simpa [removeBackupCode] using hvid) hmem'
        · subst hwv; exact hall w hw hvid
  | rotate tok' =>
      rw [applyOp]
      unfold rotate
      cases hf : st.refreshTokens.find? (fun r => r.token == tok' && !r.revoked) with
      | none => dsimp only; split <;> exact hall
      | some r => dsimp only; exact hall
  | logout tokOpt =>
      rw [applyOp]
      cases tokOpt with
      | none => exact hall
      | some tok' => unfold logout; dsimp only; exact hall
  | registerUser email password =>
      rw [applyOp]
      unfold registerUser
      cases hf : findUser st email with
      | some u => exact hall
      | none =>
          dsimp only
          unfold authSuccess
          dsimp only
          intro v hv hvid
          simp only [List.mem_append, List.mem_singleton] at hv
          rcases hv with hv | hv
          · exact hall v hv hvid
          · subst hv; simp
  | enableOTP uid' password =>
      rw [applyOp]
      unfold enableOTP
      cases hf : st.users.find? (fun u => u.id == uid') with
      | none => exact hall
      | some u =>
          dsimp only
          split
          · intro v hv hvid
            simp only [updateUser, List.mem_map] at hv
            obtain ⟨w, hw, hwv⟩ := hv
            split at hwv
            · subst hwv
              intro hmem
              simp only [List.mem_cons, List.not_mem_nil, or_false] at hmem
              rcases hmem with hmem | hmem
              · have := bcName_inj (hashString_inj (hck0 ▸ hmem))
                omega
              · have := bcName_inj (hashString_inj (hck0 ▸ hmem))
                omega
            · subst hwv; exact hall w hw hvid
          · exact hall
  | disableOTP uid' password =>
      rw [applyOp]
      unfold disableOTP
      cases hf : st.users.find? (fun u => u.id == uid') with
      | none => exact hall
      | some u =>
          dsimp only
          split
          · intro v hv hvid
            simp only [updateUser, List.mem_map] at hv
            obtain ⟨w, hw, hwv⟩ := hv
            split at hwv
            · subst hwv; simp
            · subst hwv; exact hall w hw hvid
          · exact hall
  | revokeDevice devId => rw [applyOp]; exact hall

theorem CodeDead_runOps (st : AuthState) (ops : List AuthOp) (uid : Nat) (c : String)
    (hWF : WF st) (hd : CodeDead st uid c) : CodeDead (runOps st ops) uid c := by
  induction ops generalizing st with
  | nil => exact hd
  | cons op ops ih =>
      exact ih (applyOp st op) (WF_applyOp st op hWF) (CodeDead_applyOp st op uid c hWF hd)

end Chrono

namespace Chrono

/-! ## One-shot rotation and revocation: establishment and rejection -/

theorem rotate_success_elim (st : AuthState) (tok : Nat)
    (hs : (rotate st tok).1.status = 200) :
    ∃ r, st.refreshTokens.find? (fun q => q.token == tok && !q.revoked) = some r := by
  unfold rotate at hs
  cases hf : st.refreshTokens.find? (fun q => q.token == tok && !q.revoked) with
  | some r => exact ⟨r, rfl⟩
  | none =>
      rw [hf] at hs
      dsimp only at hs
      split at hs <;> simp [rejectResp] at hs

theorem TokenDead_rotate_self (st : AuthState) (tok : Nat) (hWF : WF st)
    (hs : (rotate st tok).1.status = 200) : TokenDead (rotate st tok).2 tok := by
  obtain ⟨r, hf⟩ := rotate_success_elim st tok hs
  have hp := List.find?_some hf
  have hr : r ∈ st.refreshTokens := List.mem_of_find?_eq_some hf
  have htokr : r.token = tok := by
    simp only [Bool.and_eq_true, beq_iff_eq] at hp
    exact hp.1
  have hlt : tok < st.nonce := htokr ▸ (hWF.2.1 r hr).1
  unfold rotate
  rw [hf]
  dsimp only
  constructor
  · refine ⟨{ r with revoked := true }, ?_, by simpa using htokr⟩
    simp only [List.mem_append, List.mem_map, List.mem_singleton]
    refine Or.inl ⟨r, hr, ?_⟩
    rw [if_pos (by simpa using htokr)]
  · intro q hq htq
    simp only [List.mem_append, List.mem_map, List.mem_singleton] at hq
    rcases hq with ⟨p, hp', hpq⟩ | hq
    · by_cases ht : (p.token == tok) = true
      · rw [if_pos ht] at hpq; subst hpq; rfl
      · rw [if_neg ht] at hpq; subst hpq
        exact absurd (by simpa using htq) (by simpa using ht)
    · subst hq; simp at htq; omega

theorem TokenDead_logout_self (st : AuthState) (tok : Nat)
    (hpres : ∃ r ∈ st.refreshTokens, r.token = tok) :
    TokenDead (logout st (some tok)).2 tok := by
  obtain ⟨r0, hr0, ht0⟩ := hpres
  unfold logout
  dsimp only
  have hself : ∀ p ∈ st.refreshTokens, p.token = tok →
      (st.refreshTokens.any (fun q => q.token == tok && q.sessionId == p.sessionId)) = true := by
    intro p hp htp
    rw [List.any_eq_true]
    exact ⟨p, hp, by simp [htp]⟩
  constructor
  · refine ⟨{ r0 with revoked := true }, ?_, by simpa using ht0⟩
    simp only [List.mem_map]
    refine ⟨r0, hr0, ?_⟩
    rw [if_pos (hself r0 hr0 ht0)]
  · intro q hq htq
    simp only [List.mem_map] at hq
    obtain ⟨p, hp, hpq⟩ := hq
    have htp : p.token = tok := by
      by_contra hne
      split at hpq
      · subst hpq; exact hne (by simpa using htq)
      · subst hpq; exact hne htq
    rw [if_pos (hself p hp htp)] at hpq
    subst hpq; rfl

/-- A stored, wholly revoked refresh token is always rejected with
`refresh_failed` (§4.4). -/
theorem rotate_dead (st : AuthState) (tok : Nat) (hd : TokenDead st tok) :
    (rotate st tok).1 = rejectResp 401 "Token refresh failed" (some "refresh_failed") := by
  obtain ⟨⟨r0, hr0, ht0⟩, hall⟩ := hd
  unfold rotate
  have hf : st.refreshTokens.find? (fun q => q.token == tok && !q.revoked) = none := by
    rw [List.find?_eq_none]
    intro q hq
    by_cases ht : q.token = tok
    · simp [ht, hall q hq ht]
    · simp [ht]
  rw [hf]
  have hany : (st.refreshTokens.any (fun q => q.token == tok)) = true := by
    rw [List.any_eq_true]
    exact ⟨r0, hr0, by simp [ht0]⟩
  dsimp only
  rw [if_pos hany]

theorem rotate_success_new_token (st : AuthState) (tok : Nat) (hWF : WF st)
    (hs : (rotate st tok).1.status = 200) :
    (rotate st tok).1.refreshTokenOut ≠ some tok := by
  obtain ⟨r, hf⟩ := rotate_success_elim st tok hs
  have hp := List.find?_some hf
  have hr : r ∈ st.refreshTokens := List.mem_of_find?_eq_some hf
  have htokr : r.token = tok := by
    simp only [Bool.and_eq_true, beq_iff_eq] at hp
    exact hp.1
  have hlt : tok < st.nonce := htokr ▸ (hWF.2.1 r hr).1
  unfold rotate
  rw [hf]
  dsimp only
  intro hcon
  simp only [Option.some_inj] at hcon
  omega

/-- §4.3: after `Revoke(device_id)`, the device's token value is stored and
wholly revoked. -/
theorem DeviceDead_revoke (st : AuthState) (devId tok : Nat) (d₀ : TrustedDevice)
    (hWF : WF st) (hd₀ : d₀ ∈ st.trustedDevices) (hid : d₀.id = devId)
    (htok : d₀.token = tok) : DeviceDead (revokeDevice st devId) tok := by
  have hnd := hWF.2.2.2.1
  unfold revokeDevice
  constructor
  · refine ⟨{ d₀ with revoked := true }, ?_, by simpa using htok⟩
    simp only [List.mem_map]
    exact ⟨d₀, hd₀, by rw [if_pos (by simpa using hid)]⟩
  · intro d hdm htd
    simp only [List.mem_map] at hdm
    obtain ⟨p, hp, hpd⟩ := hdm
    have htp : p.token = tok := by
      by_contra hne
      split at hpd
      · subst hpd; exact hne (by simpa using htd)
      · subst hpd; exact hne htd
    have hpd₀ : p = d₀ :=
      List.inj_on_of_nodup_map hnd hp hd₀ (by rw [htp, htok])
    rw [if_pos (by simp [hpd₀, hid])] at hpd
    subst hpd; rfl

end Chrono

namespace Chrono

/-! ## Characterizations of the login outcomes -/

/-- Full outcome analysis of login: either a rejection (status 400/401)
recording one failure entry, or an issuance, possibly after consuming a
backup code. -/
theorem login_cases_full (st : AuthState) (req : LoginRequest) (t : Nat) :
    (∃ code msg err uid reason,
        login st req t = (rejectResp code msg err, recordAttempt st (failEntry uid reason)) ∧
        code ≠ 200) ∨
    (∃ u m, u ∈ st.users ∧ login st req t = authSuccess st u m req.device_name) ∨
    (∃ u hashed m, u ∈ st.users ∧
      login st req t =
        authSuccess (updateUser st (removeBackupCode u hashed)) u m req.device_name) := by
  unfold login
  cases hf : findUser st req.email with
  | none =>
      exact Or.inl ⟨401, _, _, none, "invalid_credentials", rfl, by omega⟩
  | some u =>
      have hu : u ∈ st.users := List.mem_of_find?_eq_some hf
      dsimp only
      by_cases hpw : (hashString req.password == u.passwordHash) = true
      · rw [if_pos hpw]
        by_cases hotp : u.otpEnabled = true
        · rw [if_pos hotp]
          have hstage : (∃ code msg err uid reason,
                otpStage st u req t = (rejectResp code msg err,
                  recordAttempt st (failEntry uid reason)) ∧ code ≠ 200) ∨
              (∃ m, otpStage st u req t = authSuccess st u m req.device_name) ∨
              (∃ hashed m, otpStage st u req t =
                (authSuccess (updateUser st (removeBackupCode u hashed)) u m
                  req.device_name)) := by
            unfold otpStage
            cases hc : req.otp_code with
            | none =>
                exact Or.inl ⟨400, _, _, some u.id, "otp_required", rfl, by omega⟩
            | some code =>
                dsimp only
                by_cases hv : verifyTOTP (u.otpSecret.getD "") code t = true
                · rw [if_pos hv]
                  exact Or.inr (Or.inl ⟨req.remember_device, rfl⟩)
                · rw [if_neg (by simp [hv])]
                  by_cases hb : u.backupCodes.contains (hashString code) = true
                  · rw [if_pos hb]
                    exact Or.inr (Or.inr ⟨hashString code, req.remember_device, rfl⟩)
                  · rw [if_neg (by simp_all)]
                    exact Or.inl ⟨401, _, _, some u.id, "invalid_otp", rfl, by omega⟩
          cases hdt : req.device_token with
          | none =>
              rcases hstage with ⟨code, msg, err, uid, reason, h, hc⟩ | ⟨m, h⟩ | ⟨hashed, m, h⟩
              · exact Or.inl ⟨code, msg, err, uid, reason, h, hc⟩
              · exact Or.inr (Or.inl ⟨u, m, hu, h⟩)
              · exact Or.inr (Or.inr ⟨u, hashed, m, hu, h⟩)
          | some dt =>
              dsimp only
              by_cases hlive : deviceLive st u.id dt = true
              · rw [if_pos hlive]
                exact Or.inr (Or.inl ⟨u, false, hu, rfl⟩)
              · rw [if_neg (by simp [hlive])]
                rcases hstage with ⟨code, msg, err, uid, reason, h, hc⟩ | ⟨m, h⟩ | ⟨hashed, m, h⟩
                · exact Or.inl ⟨code, msg, err, uid, reason, h, hc⟩
                · exact Or.inr (Or.inl ⟨u, m, hu, h⟩)
                · exact Or.inr (Or.inr ⟨u, hashed, m, hu, h⟩)
        · rw [if_neg hotp]
          exact Or.inr (Or.inl ⟨u, false, hu, rfl⟩)
      · rw [if_neg hpw]
        exact Or.inl ⟨401, _, _, some u.id, "invalid_credentials", rfl, by omega⟩

/-- A login backed by the correct password and the TOTP code of the current
window authenticates and issues a session. -/
theorem login_totp_success (st : AuthState) (req : LoginRequest) (t : Nat)
    (u : User) (s code : String)
    (hu : findUser st req.email = some u)
    (hpw : hashString req.password = u.passwordHash)
    (hotp : u.otpEnabled = true)
    (hsec : u.otpSecret = some s)
    (hdev : req.device_token = none)
    (hcode : req.otp_code = some code)
    (hgen : generate_totp s t = some code) :
    login st req t = authSuccess st u req.remember_device req.device_name := by
  have hv : verifyTOTP (u.otpSecret.getD "") code t = true := by
    rw [hsec]
    unfold verifyTOTP
    simp only [Option.getD_some]
    rw [← generate_totp_eq_totpCode, hgen]
    simp
  unfold login
  rw [hu]
  dsimp only
  rw [if_pos (by simpa using hpw), if_pos hotp, hdev]
  dsimp only
  unfold otpStage
  rw [hcode]
  dsimp only
  rw [if_pos hv]

/-- A login backed by the correct password and a stored backup code
authenticates, consuming the code. -/
theorem login_backup_eq (st : AuthState) (req : LoginRequest) (t : Nat)
    (u : User) (k : Nat)
    (hu : findUser st req.email = some u)
    (hpw : hashString req.password = u.passwordHash)
    (hotp : u.otpEnabled = true)
    (hdev : req.device_token = none)
    (hcode : req.otp_code = some (bcName k))
    (hmem : hashString (bcName k) ∈ u.backupCodes) :
    login st req t =
      authSuccess (updateUser st (removeBackupCode u (hashString (bcName k)))) u
        req.remember_device req.device_name := by
  unfold login
  rw [hu]
  dsimp only
  rw [if_pos (by simpa using hpw), if_pos hotp, hdev]
  dsimp only
  unfold otpStage
  rw [hcode]
  dsimp only
  rw [if_neg (by simp [verifyTOTP_bcName_false])]
  rw [if_pos (by simpa using hmem)]

end Chrono

namespace Chrono

/-- Updating the authenticated user's record (same id and email) is
transparent to the email lookup: the lookup now yields the update. -/
theorem find?_map_update (l : List User) (email : String) (u u' : User)
    (hu : l.find? (fun v => v.email == email) = some u)
    (hid : u'.id = u.id) (hmail : u'.email = u.email) :
    (l.map (fun v => if v.id == u'.id then u' else v)).find?
      (fun v => v.email == email) = some u' := by
  induction l with
  | nil => simp at hu
  | cons v vs ih =>
      by_cases hp : (v.email == email) = true
      · rw [@List.find?_cons_of_pos _ _ v vs hp] at hu
        have hv : v = u := by injection hu
        subst hv
        simp only [List.map_cons]
        rw [if_pos (by simp [hid])]
        exact @List.find?_cons_of_pos _ _ u' _
          (by simp only [beq_iff_eq] at hp ⊢; rw [hmail, hp])
      · rw [@List.find?_cons_of_neg _ _ v vs (by simp_all)] at hu
        have hpu : (u.email == email) = true := by
          have := List.find?_some hu
          simpa using this
        simp only [List.map_cons]
        by_cases hvid : (v.id == u'.id) = true
        · rw [if_pos hvid]
          exact @List.find?_cons_of_pos _ _ u' _
            (by simp only [beq_iff_eq] at hpu ⊢; rw [hmail, hpu])
        · rw [if_neg hvid]
          rw [@List.find?_cons_of_neg _ _ v _ (by simp_all)]
          exact ih hu

/-- A consumed backup code and correct account constraints always reject a
later login with 401. -/
theorem login_rejected_dead_code (st : AuthState) (req : LoginRequest) (t : Nat)
    (uid k : Nat) (c : String)
    (hc : c = bcName k)
    (hcode : req.otp_code = some c)
    (hdev : req.device_token = none)
    (hdead : ∀ u ∈ st.users, u.id = uid → hashString c ∉ u.backupCodes)
    (huser : ∀ u, findUser st req.email = some u → u.id = uid ∧ u.otpEnabled = true) :
    (login st req t).1.status = 401 := by
  unfold login
  cases hf : findUser st req.email with
  | none => rfl
  | some u =>
      dsimp only
      obtain ⟨hid, hotp⟩ := huser u hf
      have hu : u ∈ st.users := List.mem_of_find?_eq_some hf
      by_cases hpw : (hashString req.password == u.passwordHash) = true
      · rw [if_pos hpw, if_pos hotp, hdev]
        dsimp only
        unfold otpStage
        rw [hcode]
        dsimp only
        rw [if_neg (by simp [hc, verifyTOTP_bcName_false])]
        rw [if_neg (by simpa using hdead u hu hid)]
        rfl
      · rw [if_neg hpw]
        rfl

/-- Once all stored devices carrying a token are revoked, a login with that
token and no OTP code is pushed back to the OTP requirement (400, message
naming OTP). -/
theorem login_rejected_dead_device (st : AuthState) (req : LoginRequest) (t : Nat)
    (u : User) (dt : Nat)
    (hu : findUser st req.email = some u)
    (hpw : hashString req.password = u.passwordHash)
    (hotp : u.otpEnabled = true)
    (hdev : req.device_token = some dt)
    (hcode : req.otp_code = none)
    (hdead : ∀ d ∈ st.trustedDevices, d.token = dt → d.revoked = true) :
    (login st req t).1.status = 400 ∧ ContainsSub "OTP" (login st req t).1.msg := by
  have hlive : deviceLive st u.id dt = false := by
    unfold deviceLive
    rw [List.any_eq_false]
    intro d hd
    by_cases ht : d.token = dt
    · simp [hdead d hd ht]
    · simp [ht]
  have heq : login st req t =
      (rejectResp 400 "OTP code required" none,
       recordAttempt st (failEntry (some u.id) "otp_required")) := by
    unfold login
    rw [hu]
    dsimp only
    rw [if_pos (by simpa using hpw), if_pos hotp, hdev]
    dsimp only
    rw [if_neg (by simp [hlive])]
    unfold otpStage
    rw [hcode]
  rw [heq]
  exact ⟨rfl, "", " code required", rfl⟩

end Chrono

namespace Chrono

/-! ## Claim theorems -/

/-- **C1**: once a refresh token has been rotated (a success always returns
a refresh token different from the one presented) or revoked via logout,
every subsequent refresh presenting it returns 401 with an error among
`invalid_token` / `token_expired` / `refresh_failed`, whatever requests are
interleaved in between. -/
theorem claim_C1 (st st₁ : AuthState) (tok : Nat) (ops : List AuthOp)
    (hWF : WF st)
    (h : ((rotate st tok).1.status = 200 ∧ st₁ = (rotate st tok).2) ∨
         ((∃ r ∈ st.refreshTokens, r.token = tok) ∧ st₁ = (logout st (some tok)).2)) :
    ((rotate st tok).1.status = 200 → (rotate st tok).1.refreshTokenOut ≠ some tok) ∧
    (rotate (runOps st₁ ops) tok).1.status = 401 ∧
    (rotate (runOps st₁ ops) tok).1.error ∈
      [some "invalid_token", some "token_expired", some "refresh_failed"] := by
  have hWF₁ : WF st₁ := by
    rcases h with ⟨hs, rfl⟩ | ⟨hpres, rfl⟩
    · exact WF_applyOp st (AuthOp.rotate tok) hWF
    · exact WF_applyOp st (AuthOp.logout (some tok)) hWF
  have hdead₁ : TokenDead st₁ tok := by
    rcases h with ⟨hs, rfl⟩ | ⟨hpres, rfl⟩
    · exact TokenDead_rotate_self st tok hWF hs
    · exact TokenDead_logout_self st tok hpres
  have hdead₂ := TokenDead_runOps st₁ ops tok hWF₁ hdead₁
  have hrej := rotate_dead _ tok hdead₂
  refine ⟨fun hs => rotate_success_new_token st tok hWF hs, ?_, ?_⟩
  · rw [hrej]; rfl
  · rw [hrej]; simp [rejectResp]

theorem claim_C1_witness :
    ((rotate wState 5).1.status = 200 → (rotate wState 5).1.refreshTokenOut ≠ some 5) ∧
    (rotate (runOps (rotate wState 5).2 []) 5).1.status = 401 ∧
    (rotate (runOps (rotate wState 5).2 []) 5).1.error ∈
      [some "invalid_token", some "token_expired", some "refresh_failed"] :=
  claim_C1 wState (rotate wState 5).2 5 [] (by decide) (Or.inl ⟨by decide, rfl⟩)

/-- **C9**: two rotations of the same refresh token, sequentialised in
either order by the atomic store (§5), yield exactly one success: the first
succeeds, the second fails with `refresh_failed`. -/
theorem claim_C9 (st : AuthState) (tok : Nat) (hWF : WF st)
    (hs : (rotate st tok).1.status = 200) :
    (rotate st tok).1.status = 200 ∧
    (rotate (rotate st tok).2 tok).1.status = 401 ∧
    (rotate (rotate st tok).2 tok).1.error = some "refresh_failed" := by
  have hd := TokenDead_rotate_self st tok hWF hs
  have hrej := rotate_dead _ tok hd
  rw [hrej]
  exact ⟨hs, rfl, rfl⟩

theorem claim_C9_witness :
    (rotate wState 5).1.status = 200 ∧
    (rotate (rotate wState 5).2 5).1.status = 401 ∧
    (rotate (rotate wState 5).2 5).1.error = some "refresh_failed" :=
  claim_C9 wState 5 (by decide) (by decide)

/-- **C8**: the rejection of a login with a registered email and a wrong
password is the whole response identical to the rejection of a login with
an unregistered email (no account enumeration). -/
theorem claim_C8 (st : AuthState) (req₁ req₂ : LoginRequest) (t₁ t₂ : Nat) (u : User)
    (h1 : findUser st req₁.email = some u)
    (hw : hashString req₁.password ≠ u.passwordHash)
    (h2 : findUser st req₂.email = none) :
    (login st req₁ t₁).1 = (login st req₂ t₂).1 := by
  unfold login
  rw [h1, h2]
  dsimp only
  rw [if_neg (by simpa using hw)]

theorem claim_C8_witness :
    (login wState
      { email := "alice@example.com", password := "wrong", otp_code := none,
        device_token := none, remember_device := false, device_name := "" } 0).1 =
    (login wState
      { email := "nobody@example.com", password := "pw1", otp_code := none,
        device_token := none, remember_device := false, device_name := "" } 0).1 :=
  claim_C8 wState _ _ 0 0 wUser (by decide) (by decide) (by decide)

/-- **C2**: a user with OTP enabled presenting the correct password but
neither `otp_code` nor `device_token` is rejected with 400, a message
containing "OTP", no tokens in the response, and no session state
committed. -/
theorem claim_C2 (st : AuthState) (req : LoginRequest) (t : Nat) (u : User)
    (hu : findUser st req.email = some u)
    (hpw : hashString req.password = u.passwordHash)
    (hotp : u.otpEnabled = true)
    (hcode : req.otp_code = none)
    (hdev : req.device_token = none) :
    (login st req t).1.status = 400 ∧
    ContainsSub "OTP" (login st req t).1.msg ∧
    (login st req t).1.accessToken = none ∧
    (login st req t).1.refreshTokenOut = none ∧
    (login st req t).1.trustedDeviceToken = none ∧
    (login st req t).2.users = st.users ∧
    (login st req t).2.refreshTokens = st.refreshTokens ∧
    (login st req t).2.trustedDevices = st.trustedDevices := by
  have heq : login st req t =
      (rejectResp 400 "OTP code required" none,
       recordAttempt st (failEntry (some u.id) "otp_required")) := by
    unfold login
    rw [hu]
    dsimp only
    rw [if_pos (by simpa using hpw), if_pos hotp, hdev]
    dsimp only
    unfold otpStage
    rw [hcode]
  rw [heq]
  exact ⟨rfl, ⟨"", " code required", rfl⟩, rfl, rfl, rfl, rfl, rfl, rfl⟩

theorem claim_C2_witness :
    (login wState
      { email := "bob@example.com", password := "pw2", otp_code := none,
        device_token := none, remember_device := false, device_name := "" } 0).1.status = 400 ∧
    ContainsSub "OTP"
      (login wState
        { email := "bob@example.com", password := "pw2", otp_code := none,
          device_token := none, remember_device := false, device_name := "" } 0).1.msg ∧
    (login wState
      { email := "bob@example.com", password := "pw2", otp_code := none,
        device_token := none, remember_device := false, device_name := "" } 0).1.accessToken = none ∧
    (login wState
      { email := "bob@example.com", password := "pw2", otp_code := none,
        device_token := none, remember_device := false, device_name := "" } 0).1.refreshTokenOut = none ∧
    (login wState
      { email := "bob@example.com", password := "pw2", otp_code := none,
        device_token := none, remember_device := false, device_name := "" } 0).1.trustedDeviceToken = none ∧
    (login wState
      { email := "bob@example.com", password := "pw2", otp_code := none,
        device_token := none, remember_device := false, device_name := "" } 0).2.users = wState.users ∧
    (login wState
      { email := "bob@example.com", password := "pw2", otp_code := none,
        device_token := none, remember_device := false, device_name := "" } 0).2.refreshTokens = wState.refreshTokens ∧
    (login wState
      { email := "bob@example.com", password := "pw2", otp_code := none,
        device_token := none, remember_device := false, device_name := "" } 0).2.trustedDevices = wState.trustedDevices :=
  claim_C2 wState _ 0 wOtpUser (by decide) (by decide) (by decide) rfl rfl

/-- **C4**: a login with the correct password and a still-valid trusted
device token and no OTP code succeeds, mints no second device token, and
returns a fresh refresh token that is immediately usable. -/
theorem claim_C4 (st : AuthState) (req : LoginRequest) (t : Nat) (u : User) (dt : Nat)
    (hWF : WF st)
    (hu : findUser st req.email = some u)
    (hpw : hashString req.password = u.passwordHash)
    (hotp : u.otpEnabled = true)
    (hdev : req.device_token = some dt)
    (_hcode : req.otp_code = none)
    (hlive : deviceLive st u.id dt = true) :
    (login st req t).1.status = 200 ∧
    (login st req t).1.trustedDeviceToken = none ∧
    (login st req t).2.trustedDevices = st.trustedDevices ∧
    (login st req t).1.refreshTokenOut = some (st.nonce + 1) ∧
    (login st req t).1.accessToken = some (st.nonce + 2) ∧
    (rotate (login st req t).2 (st.nonce + 1)).1.status = 200 := by
  have heq : login st req t = authSuccess st u false req.device_name := by
    unfold login
    rw [hu]
    dsimp only
    rw [if_pos (by simpa using hpw), if_pos hotp, hdev]
    dsimp only
    rw [if_pos hlive]
  rw [heq]
  refine ⟨rfl, rfl, by simp [authSuccess], rfl, rfl, ?_⟩
  have hfind : ((authSuccess st u false req.device_name).2.refreshTokens.find?
      (fun q => q.token == st.nonce + 1 && !q.revoked)) =
      some { token := st.nonce + 1, userId := u.id, sessionId := st.nonce,
             revoked := false } := by
    unfold authSuccess
    dsimp only
    rw [List.find?_append]
    have hnone : (st.refreshTokens.find?
        (fun q => q.token == st.nonce + 1 && !q.revoked)) = none := by
      rw [List.find?_eq_none]
      intro q hq
      have := hWF.2.1 q hq
      simp only [Bool.and_eq_true, beq_iff_eq, Bool.not_eq_true']
      intro hcon
      omega
    rw [hnone]
    simp
  unfold rotate
  rw [hfind]

theorem claim_C4_witness :
    (login wState
      { email := "bob@example.com", password := "pw2", otp_code := none,
        device_token := some 4, remember_device := false, device_name := "" } 0).1.status = 200 ∧
    (login wState
      { email := "bob@example.com", password := "pw2", otp_code := none,
        device_token := some 4, remember_device := false, device_name := "" } 0).1.trustedDeviceToken = none ∧
    (login wState
      { email := "bob@example.com", password := "pw2", otp_code := none,
        device_token := some 4, remember_device := false, device_name := "" } 0).2.trustedDevices = wState.trustedDevices ∧
    (login wState
      { email := "bob@example.com", password := "pw2", otp_code := none,
        device_token := some 4, remember_device := false, device_name := "" } 0).1.refreshTokenOut = some (wState.nonce + 1) ∧
    (login wState
      { email := "bob@example.com", password := "pw2", otp_code := none,
        device_token := some 4, remember_device := false, device_name := "" } 0).1.accessToken = some (wState.nonce + 2) ∧
    (rotate (login wState
      { email := "bob@example.com", password := "pw2", otp_code := none,
        device_token := some 4, remember_device := false, device_name := "" } 0).2
      (wState.nonce + 1)).1.status = 200 :=
  claim_C4 wState _ 0 wOtpUser 4 (by decide) (by decide) (by decide) (by decide)
    rfl rfl (by decide)

end Chrono

namespace Chrono

/-- **C6**: the OTP code accepted at login for an enabled secret is exactly
the reference TOTP computation of the test-suite (HMAC-SHA1 over the
30-second window counter, dynamic truncation, modulo `10^6`, zero-padded
to 6 digits), and a login presenting it with the correct password
succeeds. -/
theorem claim_C6 (st : AuthState) (req : LoginRequest) (t : Nat) (u : User)
    (s code : String)
    (hu : findUser st req.email = some u)
    (hpw : hashString req.password = u.passwordHash)
    (hotp : u.otpEnabled = true)
    (hsec : u.otpSecret = some s)
    (hgen : generate_totp s t = some code)
    (hcode : req.otp_code = some code)
    (hdev : req.device_token = none) :
    (login st req t).1.status = 200 ∧
    (∀ c, verifyTOTP s c t = true ↔ generate_totp s t = some c) := by
  constructor
  · rw [login_totp_success st req t u s code hu hpw hotp hsec hdev hcode hgen]
    rfl
  · intro c
    unfold verifyTOTP
    rw [← generate_totp_eq_totpCode, hgen]
    dsimp only
    constructor
    · intro h
      have h2 : c = code := by simpa using h
      rw [h2]
    · intro h
      injection h with h2
      simp [h2]

theorem claim_C6_witness :
    (login wState
      { email := "bob@example.com", password := "pw2", otp_code := some "996554",
        device_token := none, remember_device := false, device_name := "" } 59).1.status = 200 ∧
    (verifyTOTP otpSecretConst "996554" 59 = true ↔
      generate_totp otpSecretConst 59 = some "996554") :=
  ⟨(claim_C6 wState
      { email := "bob@example.com", password := "pw2", otp_code := some "996554",
        device_token := none, remember_device := false, device_name := "" }
      59 wOtpUser otpSecretConst "996554" (by decide) (by decide)
      (by decide) (by decide) (by decide) rfl rfl).1,
   (claim_C6 wState
      { email := "bob@example.com", password := "pw2", otp_code := some "996554",
        device_token := none, remember_device := false, device_name := "" }
      59 wOtpUser otpSecretConst "996554" (by decide) (by decide)
      (by decide) (by decide) (by decide) rfl rfl).2 "996554"⟩

/-- **C5**: after a trusted device is revoked, every later login presenting
its token with the correct password and no OTP code is rejected (400) with
a message containing "OTP", whatever requests are interleaved in between,
while a login with a fresh TOTP code still succeeds. -/
theorem claim_C5 (st : AuthState) (devId dt : Nat) (d₀ : TrustedDevice)
    (hWF : WF st) (hd₀ : d₀ ∈ st.trustedDevices) (hid : d₀.id = devId)
    (htok : d₀.token = dt) :
    (∀ ops (req : LoginRequest) t u,
       findUser (runOps (revokeDevice st devId) ops) req.email = some u →
       hashString req.password = u.passwordHash →
       u.otpEnabled = true →
       req.device_token = some dt →
       req.otp_code = none →
       ((login (runOps (revokeDevice st devId) ops) req t).1.status = 400 ∨
        (login (runOps (revokeDevice st devId) ops) req t).1.status = 401) ∧
       ContainsSub "OTP" (login (runOps (revokeDevice st devId) ops) req t).1.msg) ∧
    (∀ (req : LoginRequest) t u s code,
       findUser st req.email = some u →
       hashString req.password = u.passwordHash →
       u.otpEnabled = true →
       u.otpSecret = some s →
       generate_totp s t = some code →
       req.otp_code = some code →
       req.device_token = none →
       (login (revokeDevice st devId) req t).1.status = 200) := by
  have hdead₁ : DeviceDead (revokeDevice st devId) dt :=
    DeviceDead_revoke st devId dt d₀ hWF hd₀ hid htok
  have hWF₁ : WF (revokeDevice st devId) := WF_applyOp st (.revokeDevice devId) hWF
  constructor
  · intro ops req t u hu hpw hotp hdev hcode
    have hdead₂ := DeviceDead_runOps _ ops dt hWF₁ hdead₁
    have hrej := login_rejected_dead_device _ req t u dt hu hpw hotp hdev hcode hdead₂.2
    exact ⟨Or.inl hrej.1, hrej.2⟩
  · intro req t u s code hu hpw hotp hsec hgen hcode hdev
    have hu' : findUser (revokeDevice st devId) req.email = some u := hu
    rw [login_totp_success _ req t u s code hu' hpw hotp hsec hdev hcode hgen]
    rfl

theorem claim_C5_witness :
    (((login (runOps (revokeDevice wState 3) [])
        { email := "bob@example.com", password := "pw2", otp_code := none,
          device_token := some 4, remember_device := false, device_name := "" } 0).1.status = 400 ∨
      (login (runOps (revokeDevice wState 3) [])
        { email := "bob@example.com", password := "pw2", otp_code := none,
          device_token := some 4, remember_device := false, device_name := "" } 0).1.status = 401) ∧
     ContainsSub "OTP"
       (login (runOps (revokeDevice wState 3) [])
         { email := "bob@example.com", password := "pw2", otp_code := none,
           device_token := some 4, remember_device := false, device_name := "" } 0).1.msg) ∧
    (login (revokeDevice wState 3)
      { email := "bob@example.com", password := "pw2", otp_code := some "996554",
        device_token := none, remember_device := false, device_name := "" } 59).1.status = 200 :=
  ⟨(claim_C5 wState 3 4 wDevice (by decide) (by decide) rfl rfl).1 [] _ 0 wOtpUser
      (by decide) (by decide) (by decide) rfl rfl,
   (claim_C5 wState 3 4 wDevice (by decide) (by decide) rfl rfl).2 _ 59 wOtpUser
      otpSecretConst "996554" (by decide) (by decide) (by decide) (by decide)
      (by decide) rfl rfl⟩

/-- **C3**: a backup code authenticates at most once: the first use (with
correct password) succeeds and removes the stored hashed entry; every later
login presenting the same code for that account (with OTP still enabled) is
rejected with 400 or 401, whatever requests are interleaved, while a fresh
TOTP code still succeeds immediately after consumption. -/
theorem claim_C3 (st : AuthState) (req : LoginRequest) (t : Nat) (u : User)
    (c s : String)
    (hWF : WF st)
    (hu : findUser st req.email = some u)
    (hpw : hashString req.password = u.passwordHash)
    (hotp : u.otpEnabled = true)
    (hsec : u.otpSecret = some s)
    (hcode : req.otp_code = some c)
    (hdev : req.device_token = none)
    (hmem : hashString c ∈ u.backupCodes) :
    (login st req t).1.status = 200 ∧
    (∀ u' ∈ (login st req t).2.users, u'.id = u.id →
       hashString c ∉ u'.backupCodes) ∧
    (∀ ops (req' : LoginRequest) t',
       req'.otp_code = some c → req'.device_token = none →
       (∀ u'', findUser (runOps (login st req t).2 ops) req'.email = some u'' →
          u''.id = u.id ∧ u''.otpEnabled = true) →
       ((login (runOps (login st req t).2 ops) req' t').1.status = 400 ∨
        (login (runOps (login st req t).2 ops) req' t').1.status = 401)) ∧
    (∀ t' code', generate_totp s t' = some code' →
       (login (login st req t).2
         { email := req.email, password := req.password, otp_code := some code',
           device_token := none, remember_device := false, device_name := "" } t').1.status
         = 200) := by
  obtain ⟨k, hkr, hck⟩ :=
    hWF.2.2.2.2.2 u (List.mem_of_find?_eq_some hu) (hashString c) hmem
  have hc : c = bcName k := hashString_inj hck
  subst hc
  have hklt : k < st.nonce := by simpa using hkr
  have heq := login_backup_eq st req t u k hu hpw hotp hdev hcode hmem
  have hremoved : ∀ u' ∈ (login st req t).2.users, u'.id = u.id →
      hashString (bcName k) ∉ u'.backupCodes := by
    rw [heq]
    unfold authSuccess
    dsimp only
    intro u' hu' hid'
    simp only [updateUser, List.mem_map] at hu'
    obtain ⟨w, hw, hwv⟩ := hu'
    by_cases hwid : (w.id == (removeBackupCode u (hashString (bcName k))).id) = true
    · rw [if_pos hwid] at hwv
      subst hwv
      simp [removeBackupCode, List.mem_filter]
    · rw [if_neg hwid] at hwv
      subst hwv
      simp only [removeBackupCode, beq_iff_eq] at hwid
      exact absurd hid' hwid
  refine ⟨by rw [heq]; rfl, hremoved, ?_, ?_⟩
  · intro ops req' t' hcode' hdev' huser
    have hWF' : WF (login st req t).2 := WF_applyOp st (.login req t) hWF
    have hn : st.nonce ≤ (login st req t).2.nonce := nonce_le_applyOp st (.login req t)
    have hdead : CodeDead (login st req t).2 u.id (bcName k) := by
      refine ⟨⟨k, ?_, rfl⟩, hremoved⟩
      simp only [List.mem_range]
      omega
    have hdead₂ := CodeDead_runOps _ ops u.id (bcName k) hWF' hdead
    exact Or.inr (login_rejected_dead_code _ req' t' u.id k (bcName k) rfl hcode' hdev'
      hdead₂.2 huser)
  · intro t' code' hgen'
    have hfind : findUser (login st req t).2 req.email =
        some (removeBackupCode u (hashString (bcName k))) := by
      rw [heq]
      unfold authSuccess findUser updateUser
      dsimp only
      exact find?_map_update st.users req.email u _ hu rfl rfl
    rw [login_totp_success (login st req t).2
      { email := req.email, password := req.password, otp_code := some code',
        device_token := none, remember_device := false, device_name := "" } t'
      (removeBackupCode u (hashString (bcName k))) s code' hfind hpw hotp hsec rfl rfl hgen']
    rfl

theorem claim_C3_witness :
    (login wState
      { email := "bob@example.com", password := "pw2", otp_code := some (bcName 2),
        device_token := none, remember_device := false, device_name := "" } 0).1.status = 200 ∧
    hashString (bcName 2) ∉ (removeBackupCode wOtpUser (hashString (bcName 2))).backupCodes ∧
    ((login (runOps (login wState
        { email := "bob@example.com", password := "pw2", otp_code := some (bcName 2),
          device_token := none, remember_device := false, device_name := "" } 0).2 [])
        { email := "bob@example.com", password := "pw2", otp_code := some (bcName 2),
          device_token := none, remember_device := false, device_name := "" } 0).1.status = 400 ∨
     (login (runOps (login wState
        { email := "bob@example.com", password := "pw2", otp_code := some (bcName 2),
          device_token := none, remember_device := false, device_name := "" } 0).2 [])
        { email := "bob@example.com", password := "pw2", otp_code := some (bcName 2),
          device_token := none, remember_device := false, device_name := "" } 0).1.status = 401) ∧
    (login (login wState
        { email := "bob@example.com", password := "pw2", otp_code := some (bcName 2),
          device_token := none, remember_device := false, device_name := "" } 0).2
      { email := "bob@example.com", password := "pw2", otp_code := some "996554",
        device_token := none, remember_device := false, device_name := "" } 59).1.status = 200 := by
  have h := claim_C3 wState
    { email := "bob@example.com", password := "pw2", otp_code := some (bcName 2),
      device_token := none, remember_device := false, device_name := "" } 0 wOtpUser
    (bcName 2) otpSecretConst (by decide) (by decide) (by decide) (by decide)
    (by decide) rfl rfl (by decide)
  refine ⟨h.1, ?_, ?_, h.2.2.2 59 "996554" (by decide)⟩
  · exact h.2.1 (removeBackupCode wOtpUser (hashString (bcName 2))) (by decide) (by decide)
  · refine h.2.2.1 [] _ 0 rfl rfl ?_
    intro u'' hu''
    have hconc : findUser (runOps (login wState
        { email := "bob@example.com", password := "pw2", otp_code := some (bcName 2),
          device_token := none, remember_device := false, device_name := "" } 0).2 [])
        "bob@example.com" = some (removeBackupCode wOtpUser (hashString (bcName 2))) := by
      decide
    rw [hconc] at hu''
    injection hu'' with hu''
    subst hu''
    exact ⟨by decide, by decide⟩

end Chrono

namespace Chrono

/-- After an issuance, logging out with the returned refresh token flips
exactly the history entries of the fresh session to inactive; the new
success entry is among them. -/
theorem authSuccess_logout_flip (base : AuthState) (u : User) (m : Bool) (dn : String)
    (hhist : ∀ e ∈ base.loginHistory, e.sessionId.getD 0 < base.nonce) :
    ∀ e' ∈ (logout (authSuccess base u m dn).2
        (authSuccess base u m dn).1.refreshTokenOut).2.loginHistory,
      e'.sessionId = some base.nonce → e'.isActive = false ∧ e'.loginStatus = "success" := by
  intro e' he' hsid
  unfold authSuccess logout at he'
  dsimp only at he'
  simp only [List.mem_map] at he'
  obtain ⟨f, hf, hfe⟩ := he'
  simp only [List.mem_append, List.mem_singleton] at hf
  rcases hf with hf | hf
  · have hlt := hhist f hf
    exfalso
    have hsidf : f.sessionId = some base.nonce := by
      split at hfe <;> (subst hfe; simpa using hsid)
    rw [hsidf] at hlt
    simp at hlt
  · subst hf
    rw [if_pos ?hcond] at hfe
    case hcond =>
      rw [List.any_eq_true]
      refine ⟨{ token := base.nonce + 1, userId := u.id, sessionId := base.nonce,
                revoked := false }, ?_, by simp⟩
      simp
    subst hfe
    exact ⟨rfl, rfl⟩

/-- **C7**: every login attempt appends exactly one login-history entry; a
successful registration or login appends an entry with `login_status =
"success"` and `is_active = true` carrying the fresh session id, and after
a logout with the session's refresh token the entries of that session id
are inactive. -/
theorem claim_C7 (st : AuthState) (req : LoginRequest) (t : Nat) (email pw : String)
    (hWF : WF st) :
    ((login st req t).2.loginHistory.length = st.loginHistory.length + 1) ∧
    ((registerUser st email pw).1.status = 200 →
       ∃ e, (registerUser st email pw).2.loginHistory = st.loginHistory ++ [e] ∧
         e.loginStatus = "success" ∧ e.isActive = true) ∧
    ((login st req t).1.status = 200 →
       ∃ e, (login st req t).2.loginHistory = st.loginHistory ++ [e] ∧
         e.loginStatus = "success" ∧ e.isActive = true ∧ e.sessionId = some st.nonce ∧
         (∀ e' ∈ (logout (login st req t).2
             (login st req t).1.refreshTokenOut).2.loginHistory,
            e'.sessionId = some st.nonce →
            e'.isActive = false ∧ e'.loginStatus = "success")) := by
  refine ⟨?_, ?_, ?_⟩
  · rcases login_snd_cases st req t with ⟨uid, reason, h⟩ | ⟨u, m, _, h⟩
      | ⟨u, hashed, m, _, h⟩
    · rw [h]; simp [recordAttempt]
    · rw [h]; simp [authSuccess]
    · rw [h]; simp [authSuccess, updateUser]
  · unfold registerUser
    cases hf : findUser st email with
    | some u => intro hcon; simp [rejectResp] at hcon
    | none =>
        dsimp only
        intro _
        refine ⟨⟨some (st.nonce + 1), some st.nonce, "success", none, true⟩, ?_, rfl, rfl⟩
        simp [authSuccess]
  · intro hs
    rcases login_cases_full st req t with ⟨code, msg, err, uid, reason, h, hne⟩
      | ⟨u, m, _, h⟩ | ⟨u, hashed, m, _, h⟩
    · rw [h] at hs
      exact absurd hs hne
    · refine ⟨⟨some st.nonce, some u.id, "success", none, true⟩, ?_, rfl, rfl, rfl, ?_⟩
      · rw [h]; simp [authSuccess]
      · rw [h]
        exact authSuccess_logout_flip st u m req.device_name hWF.2.2.2.2.1
    · refine ⟨⟨some st.nonce, some u.id, "success", none, true⟩, ?_, rfl, rfl, rfl, ?_⟩
      · rw [h]; simp [authSuccess, updateUser]
      · rw [h]
        exact authSuccess_logout_flip (updateUser st (removeBackupCode u hashed)) u m
          req.device_name hWF.2.2.2.2.1

theorem claim_C7_witness :
    ((login wState
       { email := "alice@example.com", password := "pw1", otp_code := none,
         device_token := none, remember_device := false, device_name := "" } 0).2.loginHistory.length
       = wState.loginHistory.length + 1) ∧
    (∃ e, (registerUser wState "carol@example.com" "pw3").2.loginHistory =
        wState.loginHistory ++ [e] ∧
      e.loginStatus = "success" ∧ e.isActive = true) ∧
    (∃ e, (login wState
        { email := "alice@example.com", password := "pw1", otp_code := none,
          device_token := none, remember_device := false, device_name := "" } 0).2.loginHistory =
          wState.loginHistory ++ [e] ∧
      e.loginStatus = "success" ∧ e.isActive = true ∧ e.sessionId = some wState.nonce ∧
      (∀ e' ∈ (logout (login wState
          { email := "alice@example.com", password := "pw1", otp_code := none,
            device_token := none, remember_device := false, device_name := "" } 0).2
          (login wState
            { email := "alice@example.com", password := "pw1", otp_code := none,
              device_token := none, remember_device := false, device_name := "" } 0).1.refreshTokenOut).2.loginHistory,
         e'.sessionId = some wState.nonce →
         e'.isActive = false ∧ e'.loginStatus = "success")) := by
  have h := claim_C7 wState
    { email := "alice@example.com", password := "pw1", otp_code := none,
      device_token := none, remember_device := false, device_name := "" } 0
    "carol@example.com" "pw3" (by decide)
  exact ⟨h.1, h.2.1 (by decide), h.2.2 (by decide)⟩

end Chrono

namespace Chrono

/-! ## Claim C10: the client retry loop -/

theorem requestAux_sends_le (transport : Nat → Outcome) (expected : Option Nat) :
    ∀ remaining sends,
      (requestAux transport expected remaining sends).2 ≤ sends + remaining := by
  intro remaining
  induction remaining with
  | zero => intro sends; simp [requestAux]
  | succ r ih =>
      intro sends
      unfold requestAux
      cases transport sends with
      | response status =>
          cases expected with
          | some exp =>
              dsimp only
              split <;> simp
          | none => simp
      | connError => have := ih (sends + 1); dsimp only; omega
      | timeoutErr => have := ih (sends + 1); dsimp only; omega
      | otherExc => simp

theorem requestAux_retry_only (transport : Nat → Outcome) (expected : Option Nat) :
    ∀ remaining sends k, sends ≤ k →
      k + 1 < (requestAux transport expected remaining sends).2 →
      Retryable (transport k) := by
  intro remaining
  induction remaining with
  | zero =>
      intro sends k hsk hk
      simp [requestAux] at hk
      omega
  | succ r ih =>
      intro sends k hsk hk
      unfold requestAux at hk
      cases htr : transport sends with
      | response status =>
          rw [htr] at hk
          cases expected with
          | some exp =>
              dsimp only at hk
              split at hk <;> (simp at hk; omega)
          | none => simp at hk; omega
      | connError =>
          rw [htr] at hk
          dsimp only at hk
          by_cases hek : sends = k
          · subst hek; exact Or.inl htr
          · exact ih (sends + 1) k (by omega) hk
      | timeoutErr =>
          rw [htr] at hk
          dsimp only at hk
          by_cases hek : sends = k
          · subst hek; exact Or.inr htr
          · exact ih (sends + 1) k (by omega) hk
      | otherExc =>
          rw [htr] at hk
          simp at hk
          omega

theorem requestAux_exhaust (transport : Nat → Outcome) (expected : Option Nat) :
    ∀ remaining sends,
      (∀ k, sends ≤ k → k < sends + remaining → Retryable (transport k)) →
      requestAux transport expected remaining sends =
        (ReqResult.errExhausted, sends + remaining) := by
  intro remaining
  induction remaining with
  | zero => intro sends _; simp [requestAux]
  | succ r ih =>
      intro sends hall
      have hfirst : Retryable (transport sends) := hall sends (by omega) (by omega)
      unfold requestAux
      rcases hfirst with h | h
      · rw [h]
        dsimp only
        rw [ih (sends + 1) (fun k hk1 hk2 => hall k (by omega) (by omega))]
        have : sends + 1 + r = sends + (r + 1) := by omega
        rw [this]
      · rw [h]
        dsimp only
        rw [ih (sends + 1) (fun k hk1 hk2 => hall k (by omega) (by omega))]
        have : sends + 1 + r = sends + (r + 1) := by omega
        rw [this]

/-- **C10**: `APIClient.request` makes at most `max_retries` sends, never
re-sends once any HTTP response has been received (every send before the
last produced `ConnectionError`/`Timeout`, the only retried exceptions),
and raises `APIError` after exhausting the retries. -/
theorem claim_C10 (transport : Nat → Outcome) (maxRetries : Nat) (expected : Option Nat) :
    (request transport maxRetries expected).2 ≤ maxRetries ∧
    (∀ k, k + 1 < (request transport maxRetries expected).2 → Retryable (transport k)) ∧
    ((∀ k, k < maxRetries → Retryable (transport k)) →
      request transport maxRetries expected = (ReqResult.errExhausted, maxRetries)) := by
  refine ⟨?_, ?_, ?_⟩
  · have := requestAux_sends_le transport expected maxRetries 0
    simpa [request] using this
  · intro k hk
    exact requestAux_retry_only transport expected maxRetries 0 k (by omega) hk
  · intro hall
    have := requestAux_exhaust transport expected maxRetries 0
      (fun k _ hk2 => hall k (by simpa using hk2))
    simpa [request] using this

theorem claim_C10_witness :
    (request (fun _ => Outcome.connError) 2 none).2 ≤ 2 ∧
    request (fun _ => Outcome.connError) 2 none = (ReqResult.errExhausted, 2) :=
  ⟨(claim_C10 (fun _ => Outcome.connError) 2 none).1,
   (claim_C10 (fun _ => Outcome.connError) 2 none).2.2 (fun _ _ => Or.inl rfl)⟩

end Chrono
